import Mathlib

/-!
# youless-observer: the lifecycle coordinator

A shallow embedding of `src/app/observer-app/app.go` (`New`, `Run`, `Shutdown`)
and of the `Run`/`Shutdown` pair of `src/app/observer/app.go`.

Every collaborator of the coordinator (health checker, telemetry, server,
device client, observer) lives outside the two files.  A collaborator is
therefore a field of `World`: an arbitrary function on an arbitrary world
state `σ`.  The coordinator threads the state through its calls and appends
one `Event` per call to a trace, so that invocation counts and invocation
order are ordinary facts about a list.
-/

set_option autoImplicit false
set_option linter.dupNamespace false

/-! ## Go values -/

/-- A Go pointer; `none` is the nil pointer. -/
abbrev Ptr (α : Type) := Option α

/-- A non-nil Go `error` value.  `msg` is an `errors.Msg` (or any other leaf
error, named by its text), `wrap cause tag` is what `errors.Wrap` builds and
`join` is the aggregate built by `errors.Append`. -/
inductive Err where
  | msg (text : String)
  | wrap (cause : Err) (tag : String)
  | join (left right : Err)
  deriving DecidableEq, Repr

/-- A Go `error` interface value; `none` is nil. -/
abbrev GoError := Option Err

/-- Whether the error `e` has `x` in its chain: `e` is `x`, or wraps an error
containing `x`, or is an aggregate with a member containing `x`. -/
def Err.contains : Err → Err → Bool
  | .msg t, x => decide (Err.msg t = x)
  | .wrap c t, x => decide (Err.wrap c t = x) || c.contains x
  | .join l r, x => decide (Err.join l r = x) || l.contains x || r.contains x

/-- Containment lifted to a possibly-nil error: nil contains nothing. -/
def GoError.contains : GoError → Err → Bool
  | none, _ => false
  | some e, x => e.contains x

/-- The Go type `errors.Msg`: a string that is an error. -/
abbrev errors.Msg := String

/-- Modelled from the spec: `errors.Wrap` of github.com/go-pogo/errors is not
under src/.  It yields "a wrapped error tagged" with the message; on a nil
cause there is nothing to wrap. -/
def errors.Wrap (cause : GoError) (tag : errors.Msg) : GoError :=
  match cause with
  | none => none
  | some c => some (Err.wrap c tag)

/-- Modelled from the spec: `errors.Append` of github.com/go-pogo/errors is
not under src/.  Failures "are combined into one non-nil aggregate error if
any occurred"; a nil side contributes nothing. -/
def errors.Append (left right : GoError) : GoError :=
  match left, right with
  | none, r => r
  | l, none => l
  | some l, some r => some (Err.join l r)

/-! ## External collaborator types

Each external type is a handle; the number tells instances apart. -/

structure healthcheck.Checker where
  addr : Nat
  deriving DecidableEq, Repr

structure telemetry.Telemetry where
  addr : Nat
  deriving DecidableEq, Repr

structure server.Server where
  addr : Nat
  deriving DecidableEq, Repr

structure youlessclient.Client where
  addr : Nat
  deriving DecidableEq, Repr

structure youlessobserver.Observer where
  addr : Nat
  deriving DecidableEq, Repr

structure buildinfo.BuildInfo where
  addr : Nat
  deriving DecidableEq, Repr

structure zerolog.Logger where
  id : Nat
  deriving DecidableEq, Repr

/-- The type `logging.Logger`: it has a `zerolog.Logger` field named `Logger`. -/
structure logging.Logger where
  Logger : zerolog.Logger
  deriving DecidableEq, Repr

/-- A `context.Context`: one handed in by the caller, or one derived from a
parent by `errgroup.WithContext`. -/
inductive Context where
  | root (id : Nat)
  | derived (parent : Context)
  deriving DecidableEq, Repr

/-- The type `telemetry.Config`: the `ServiceName` field that `New` reads and
writes, and all its other fields together. -/
structure telemetry.Config where
  ServiceName : String
  rest : List (String × String)
  deriving DecidableEq, Repr

structure server.Config where
  id : Nat
  deriving DecidableEq, Repr

structure youlessclient.Config where
  id : Nat
  deriving DecidableEq, Repr

structure youlessobserver.MeterReadingRegisterer where
  id : Nat
  deriving DecidableEq, Repr

structure youlessobserver.PhaseReadingRegisterer where
  id : Nat
  deriving DecidableEq, Repr

/-- The result of `telem.TracerProvider()`, named by its receiver. -/
structure telemetry.TracerProvider where
  telem : Ptr telemetry.Telemetry
  deriving DecidableEq, Repr

/-- The result of `telem.MeterProvider()`, named by its receiver. -/
structure telemetry.MeterProvider where
  telem : Ptr telemetry.Telemetry
  deriving DecidableEq, Repr

/-- The functional options `server.WithBuildInfo` and
`server.WithHealthChecker`. -/
inductive server.Opt where
  | WithBuildInfo (bld : Ptr buildinfo.BuildInfo)
  | WithHealthChecker (health : Ptr healthcheck.Checker)
  deriving DecidableEq, Repr

/-- The functional options `youlessclient.WithLogger` and
`youlessclient.WithTracerProvider`. -/
inductive youlessclient.Opt where
  | WithLogger (log : Ptr logging.Logger)
  | WithTracerProvider (tp : telemetry.TracerProvider)
  deriving DecidableEq, Repr

namespace observer_app

/-- The type `observerLogger` of app.go: `struct{ zl zerolog.Logger }`. -/
structure observerLogger where
  zl : zerolog.Logger
  deriving DecidableEq, Repr

end observer_app

/-- The functional options `youlessobserver.WithLogger`,
`youlessobserver.WithMeterReading` and `youlessobserver.WithPhaseReading`. -/
inductive youlessobserver.Opt where
  | WithLogger (l : Ptr observer_app.observerLogger)
  | WithMeterReading (reg : youlessobserver.MeterReadingRegisterer)
      (client : Ptr youlessclient.Client)
  | WithPhaseReading (reg : youlessobserver.PhaseReadingRegisterer)
      (client : Ptr youlessclient.Client)
  deriving DecidableEq, Repr

/-! ## Calls and traces -/

/-- One completed call of a collaborator: its arguments and what it returned. -/
inductive Event where
  | healthcheckNew (res : Ptr healthcheck.Checker) (err : GoError)
  | setupTelemetry (conf : telemetry.Config) (log : Ptr zerolog.Logger)
      (bld : Ptr buildinfo.BuildInfo) (health : Ptr healthcheck.Checker)
      (res : Ptr telemetry.Telemetry) (err : GoError)
  | serverNew (name : String) (conf : server.Config) (log : Ptr logging.Logger)
      (telem : Ptr telemetry.Telemetry) (opts : List server.Opt)
      (res : Ptr server.Server) (err : GoError)
  | NewClient (conf : youlessclient.Config) (opts : List youlessclient.Opt)
      (res : Ptr youlessclient.Client) (err : GoError)
  | NewObserver (mp : telemetry.MeterProvider) (opts : List youlessobserver.Opt)
      (res : Ptr youlessobserver.Observer) (err : GoError)
  | RegisterHealthCheckers (obs : Ptr youlessobserver.Observer)
      (health : Ptr healthcheck.Checker)
  | observerStart (obs : Ptr youlessobserver.Observer) (err : GoError)
  | serverRun (srv : Ptr server.Server) (ctx : Context) (err : GoError)
  | serverShutdown (srv : Ptr server.Server) (ctx : Context) (err : GoError)
  | observerStop (obs : Ptr youlessobserver.Observer) (err : GoError)
  | ForceFlush (telem : Ptr telemetry.Telemetry) (ctx : Context) (err : GoError)
  | telemetryShutdown (telem : Ptr telemetry.Telemetry) (ctx : Context)
      (err : GoError)
  deriving DecidableEq, Repr

/-- Which collaborator function an event is a call of. -/
inductive Kind where
  | healthcheckNew | setupTelemetry | serverNew | NewClient | NewObserver
  | RegisterHealthCheckers | observerStart | serverRun | serverShutdown
  | observerStop | ForceFlush | telemetryShutdown
  deriving DecidableEq, Repr

def Event.kind : Event → Kind
  | .healthcheckNew .. => .healthcheckNew
  | .setupTelemetry .. => .setupTelemetry
  | .serverNew .. => .serverNew
  | .NewClient .. => .NewClient
  | .NewObserver .. => .NewObserver
  | .RegisterHealthCheckers .. => .RegisterHealthCheckers
  | .observerStart .. => .observerStart
  | .serverRun .. => .serverRun
  | .serverShutdown .. => .serverShutdown
  | .observerStop .. => .observerStop
  | .ForceFlush .. => .ForceFlush
  | .telemetryShutdown .. => .telemetryShutdown

/-- The error a call returned (nil for `RegisterHealthCheckers`, which
returns nothing). -/
def Event.err : Event → GoError
  | .healthcheckNew _ e => e
  | .setupTelemetry _ _ _ _ _ e => e
  | .serverNew _ _ _ _ _ _ e => e
  | .NewClient _ _ _ e => e
  | .NewObserver _ _ _ e => e
  | .RegisterHealthCheckers _ _ => none
  | .observerStart _ e => e
  | .serverRun _ _ e => e
  | .serverShutdown _ _ e => e
  | .observerStop _ e => e
  | .ForceFlush _ _ e => e
  | .telemetryShutdown _ _ e => e

/-- How often a collaborator function was called in a trace. -/
def calls (k : Kind) (tr : List Event) : Nat :=
  tr.countP (fun ev => decide (ev.kind = k))

/-- The collaborators.  Each field is the behaviour of one external function
or method on the world state `σ`; method receivers are passed as pointers,
nil included, and every call is taken to return. -/
structure World (σ : Type) where
  healthcheckNew : σ → (Ptr healthcheck.Checker × GoError) × σ
  setupTelemetry : telemetry.Config → Ptr zerolog.Logger →
    Ptr buildinfo.BuildInfo → Ptr healthcheck.Checker →
    σ → (Ptr telemetry.Telemetry × GoError) × σ
  serverNew : String → server.Config → Ptr logging.Logger →
    Ptr telemetry.Telemetry → List server.Opt →
    σ → (Ptr server.Server × GoError) × σ
  NewClient : youlessclient.Config → List youlessclient.Opt →
    σ → (Ptr youlessclient.Client × GoError) × σ
  NewObserver : telemetry.MeterProvider → List youlessobserver.Opt →
    σ → (Ptr youlessobserver.Observer × GoError) × σ
  RegisterHealthCheckers : Ptr youlessobserver.Observer →
    Ptr healthcheck.Checker → σ → σ
  observerStart : Ptr youlessobserver.Observer → σ → GoError × σ
  observerStop : Ptr youlessobserver.Observer → σ → GoError × σ
  serverRun : Ptr server.Server → Context → σ → GoError × σ
  serverShutdown : Ptr server.Server → Context → σ → GoError × σ
  ForceFlush : Ptr telemetry.Telemetry → Context → σ → GoError × σ
  telemetryShutdown : Ptr telemetry.Telemetry → Context → σ → GoError × σ

/-- The outcome of running coordinator code: what it returned (`none` when it
panicked instead), the world state it left, and the calls it made, oldest
first. -/
structure Exec (σ α : Type) where
  out : Option α
  state : σ
  trace : List Event

/-! ## Goroutines and the error group -/

/-- The body of a goroutine, as the calls it still has to make: it has
returned `err`, or it calls a collaborator (`run` on the world state, logged
as `ev` of the result) and goes on with `next` of the result. -/
inductive Goroutine (σ : Type) where
  | ret (err : GoError) : Goroutine σ
  | call (run : σ → GoError × σ) (ev : GoError → Event)
      (next : GoError → Goroutine σ) : Goroutine σ

/-- One goroutine run to its end: the error it returns, the state it leaves
and the calls it made. -/
def Goroutine.run {σ : Type} : Goroutine σ → σ → GoError × σ × List Event
  | .ret e, s => (e, s, [])
  | .call run ev next, s =>
    let r := run s
    let rest := (next r.1).run r.2
    (rest.1, rest.2.1, ev r.1 :: rest.2.2)

/-- The complete runs a goroutine can make: the calls in order, each with some
result, and the error returned at the end. -/
def Goroutine.Path {σ : Type} : Goroutine σ → List Event → GoError → Prop
  | .ret e, tr, out => tr = [] ∧ out = e
  | .call _ ev next, tr, out => ∃ r tr', tr = ev r :: tr' ∧ (next r).Path tr' out

/-- The goroutines of `ts` run one after the other; `acc` collects what they
return. -/
def runAll {σ : Type} : List (Goroutine σ) → GoError → σ → GoError × σ × List Event
  | [], acc, s => (acc, s, [])
  | t :: ts, acc, s =>
    let r := t.run s
    let rest := runAll ts (errors.Append acc r.1) r.2.1
    (rest.1, rest.2.1, r.2.2 ++ rest.2.2)

/-- The goroutines of `ts` run concurrently.  The schedule decides whose turn
it is: entry `i` lets goroutine `i % ts.length` take one step, which is its
next collaborator call or, when it has none left, its return (its error goes
into `acc` and it leaves the pool).  When the schedule runs out, the
goroutines left finish in order. -/
def interleave {σ : Type} :
    List Nat → List (Goroutine σ) → GoError → σ → GoError × σ × List Event
  | [], ts, acc, s => runAll ts acc s
  | i :: sch, ts, acc, s =>
    match ts[i % ts.length]? with
    | none => (acc, s, [])
    | some (.ret e) =>
      interleave sch (ts.eraseIdx (i % ts.length)) (errors.Append acc e) s
    | some (.call run ev next) =>
      let r := run s
      let rest := interleave sch (ts.set (i % ts.length) (next r.1)) acc r.2
      (rest.1, rest.2.1, ev r.1 :: rest.2.2)

/-- Modelled from the spec: package errgroup of github.com/go-pogo/errors is
not under src/.  The group is "a classic wait for all, collect all errors
barrier, not a cancel-on-first-failure race": it holds the goroutines started
with `Go`, and `Wait` joins them all and returns their failures combined. -/
structure errgroup.Group (σ : Type) where
  tasks : List (Goroutine σ)

/-- The function `errgroup.WithContext`: an empty group and a context derived
from `ctx`. -/
def errgroup.WithContext {σ : Type} (ctx : Context) : errgroup.Group σ × Context :=
  (⟨[]⟩, Context.derived ctx)

/-- The method `Go`: start `f` as one more goroutine of the group. -/
def errgroup.Group.Go {σ : Type} (g : errgroup.Group σ) (f : Goroutine σ) :
    errgroup.Group σ :=
  ⟨g.tasks ++ [f]⟩

/-- The method `Wait`: block until every goroutine of the group has returned,
under the interleaving `sched`, and return the collected failures. -/
def errgroup.Group.Wait {σ : Type} (g : errgroup.Group σ) (sched : List Nat)
    (s : σ) : GoError × σ × List Event :=
  interleave sched g.tasks none s

/-! ## Replaying a trace on the world -/

/-- The call an event records, made again on the world in state `s`: the state
the call leaves when the world returns what the event records, and `none` when
it returns something else. -/
def World.redo {σ : Type} (w : World σ) : Event → σ → Option σ
  | .healthcheckNew res err, s =>
    if (w.healthcheckNew s).1 = (res, err) then some (w.healthcheckNew s).2 else none
  | .setupTelemetry conf log bld health res err, s =>
    if (w.setupTelemetry conf log bld health s).1 = (res, err) then
      some (w.setupTelemetry conf log bld health s).2
    else none
  | .serverNew name conf log telem opts res err, s =>
    if (w.serverNew name conf log telem opts s).1 = (res, err) then
      some (w.serverNew name conf log telem opts s).2
    else none
  | .NewClient conf opts res err, s =>
    if (w.NewClient conf opts s).1 = (res, err) then some (w.NewClient conf opts s).2
    else none
  | .NewObserver mp opts res err, s =>
    if (w.NewObserver mp opts s).1 = (res, err) then some (w.NewObserver mp opts s).2
    else none
  | .RegisterHealthCheckers obs health, s => some (w.RegisterHealthCheckers obs health s)
  | .observerStart obs err, s =>
    if (w.observerStart obs s).1 = err then some (w.observerStart obs s).2 else none
  | .serverRun srv ctx err, s =>
    if (w.serverRun srv ctx s).1 = err then some (w.serverRun srv ctx s).2 else none
  | .serverShutdown srv ctx err, s =>
    if (w.serverShutdown srv ctx s).1 = err then some (w.serverShutdown srv ctx s).2
    else none
  | .observerStop obs err, s =>
    if (w.observerStop obs s).1 = err then some (w.observerStop obs s).2 else none
  | .ForceFlush telem ctx err, s =>
    if (w.ForceFlush telem ctx s).1 = err then some (w.ForceFlush telem ctx s).2 else none
  | .telemetryShutdown telem ctx err, s =>
    if (w.telemetryShutdown telem ctx s).1 = err then
      some (w.telemetryShutdown telem ctx s).2
    else none

/-- A trace made again on the world, call by call from state `s`, each call on
the state the call before it left: the state after the last call when every
call returns what the trace records for it, and `none` otherwise. -/
def replay {σ : Type} (w : World σ) : List Event → σ → Option σ
  | [], s => some s
  | ev :: tr, s =>
    match w.redo ev s with
    | none => none
    | some s1 => replay w tr s1

/-- A goroutine whose every call is a call of the world, logged as the event
of that call. -/
def Goroutine.Genuine {σ : Type} (w : World σ) : Goroutine σ → Prop
  | .ret _ => True
  | .call run ev next =>
    (∀ s, w.redo (ev (run s).1) s = some (run s).2) ∧ ∀ r, (next r).Genuine w

/-! ## src/app/observer-app/app.go -/

namespace observer_app

def ErrCreateHealthCheck : errors.Msg := "failed to create health checker"
def ErrSetupTelemetry : errors.Msg := "failed to set up telemetry"
def ErrCreateServer : errors.Msg := "failed to create server"
def ErrCreateClient : errors.Msg := "failed to create client"
def ErrCreateObserver : errors.Msg := "failed to create observer"

def Name : String := "observer"

/-- The `Observer` field of `Config`. -/
structure ObserverConfig where
  MeterReadingRegisterer : youlessobserver.MeterReadingRegisterer
  PhaseReadingRegisterer : youlessobserver.PhaseReadingRegisterer
  deriving DecidableEq, Repr

/-- Modelled from the spec: the `Config` type of this package is declared
outside app.go.  These are the fields `New` reads, shaped as in the `Config`
of src/app/observer/app.go. -/
structure Config where
  Server : server.Config
  Telemetry : telemetry.Config
  YouLess : youlessclient.Config
  Observer : ObserverConfig
  deriving DecidableEq, Repr

/-- The struct `App`; a zero `App` has every field nil. -/
structure App where
  telem : Ptr telemetry.Telemetry := none
  health : Ptr healthcheck.Checker := none
  server : Ptr server.Server := none
  client : Ptr youlessclient.Client := none
  observer : Ptr youlessobserver.Observer := none
  deriving DecidableEq, Repr

/-- The function `New`.  `setupTelemetry` belongs to this package but is not in
app.go; it is a collaborator like the imported constructors. -/
def New {σ : Type} (w : World σ) (conf : Config) (log : Ptr logging.Logger)
    (bld : Ptr buildinfo.BuildInfo) (s : σ) : Exec σ (Ptr App × GoError) :=
  -- var app App
  let app : App := {}
  -- app.health, err = healthcheck.New()
  let r1 := w.healthcheckNew s
  let app := { app with health := r1.1.1 }
  let t1 := [Event.healthcheckNew r1.1.1 r1.1.2]
  if r1.1.2 ≠ none then
    ⟨some (none, errors.Wrap r1.1.2 ErrCreateHealthCheck), r1.2, t1⟩
  else
  -- set up telemetry
  let conf : Config :=
    if conf.Telemetry.ServiceName = "" then
      { conf with Telemetry := { conf.Telemetry with ServiceName := "youless-" ++ Name } }
    else conf
  -- &log.Logger dereferences log
  match log with
  | none => ⟨none, r1.2, t1⟩
  | some lg =>
  let r2 := w.setupTelemetry conf.Telemetry (some lg.Logger) bld app.health r1.2
  let telem := r2.1.1
  let t2 := t1 ++ [Event.setupTelemetry conf.Telemetry (some lg.Logger) bld app.health
    r2.1.1 r2.1.2]
  if r2.1.2 ≠ none then
    ⟨some (none, errors.Wrap r2.1.2 ErrSetupTelemetry), r2.2, t2⟩
  else
  -- set up server
  let sopts := [server.Opt.WithBuildInfo bld, server.Opt.WithHealthChecker app.health]
  let r3 := w.serverNew Name conf.Server log telem sopts r2.2
  let app := { app with server := r3.1.1 }
  let t3 := t2 ++ [Event.serverNew Name conf.Server log telem sopts r3.1.1 r3.1.2]
  if r3.1.2 ≠ none then
    ⟨some (none, errors.Wrap r3.1.2 ErrCreateServer), r3.2, t3⟩
  else
  -- set up YouLess client
  let copts := [youlessclient.Opt.WithLogger log,
    youlessclient.Opt.WithTracerProvider ⟨telem⟩]
  let r4 := w.NewClient conf.YouLess copts r3.2
  let app := { app with client := r4.1.1 }
  let t4 := t3 ++ [Event.NewClient conf.YouLess copts r4.1.1 r4.1.2]
  if r4.1.2 ≠ none then
    ⟨some (none, errors.Wrap r4.1.2 ErrCreateClient), r4.2, t4⟩
  else
  -- set up observer
  let oopts := [youlessobserver.Opt.WithLogger (some ⟨lg.Logger⟩),
    youlessobserver.Opt.WithMeterReading conf.Observer.MeterReadingRegisterer app.client,
    youlessobserver.Opt.WithPhaseReading conf.Observer.PhaseReadingRegisterer app.client]
  let r5 := w.NewObserver ⟨telem⟩ oopts r4.2
  let app := { app with observer := r5.1.1 }
  let t5 := t4 ++ [Event.NewObserver ⟨telem⟩ oopts r5.1.1 r5.1.2]
  if r5.1.2 ≠ none then
    ⟨some (none, errors.Wrap r5.1.2 ErrCreateObserver), r5.2, t5⟩
  else
  -- app.observer.RegisterHealthCheckers(app.health)
  let s6 := w.RegisterHealthCheckers app.observer app.health r5.2
  let t6 := t5 ++ [Event.RegisterHealthCheckers app.observer app.health]
  ⟨some (some app, none), s6, t6⟩

/-- The telemetry configuration at the call of `setupTelemetry`: the caller's,
after the assignment of lines 53 to 55 of app.go. -/
def telemetryConf (conf : Config) : telemetry.Config :=
  if conf.Telemetry.ServiceName = "" then
    { conf.Telemetry with ServiceName := "youless-" ++ Name }
  else conf.Telemetry

/-- The method `Run`, on a non-nil receiver: start the internal observer, then
run the server. -/
def Run {σ : Type} (w : World σ) (app : App) (ctx : Context) (s : σ) :
    Exec σ GoError :=
  let r := w.observerStart app.observer s
  let t1 := [Event.observerStart app.observer r.1]
  if r.1 ≠ none then
    ⟨some r.1, r.2, t1⟩
  else
  let r2 := w.serverRun app.server ctx r.2
  ⟨some r2.1, r2.2, t1 ++ [Event.serverRun app.server ctx r2.1]⟩

/-- The method `Shutdown`, on a non-nil receiver.  `sched` is the interleaving
of the two goroutines started on the error group; the server's `Shutdown` has
returned before either of them is started. -/
def Shutdown {σ : Type} (w : World σ) (app : App) (ctx : Context)
    (sched : List Nat) (s : σ) : Exec σ GoError :=
  -- shutdown server first before shutting down other services
  let r := w.serverShutdown app.server ctx s
  let serverErr := r.1
  let t1 := [Event.serverShutdown app.server ctx r.1]
  let g := errgroup.WithContext ctx
  let wg : errgroup.Group σ := g.1
  let ctx := g.2
  let wg := wg.Go
    (Goroutine.call (w.observerStop app.observer) (Event.observerStop app.observer) Goroutine.ret)
  let wg := wg.Go
    (Goroutine.call (w.ForceFlush app.telem ctx) (Event.ForceFlush app.telem ctx) fun err =>
      if err ≠ none then Goroutine.ret err
      else
        Goroutine.call (w.telemetryShutdown app.telem ctx)
          (Event.telemetryShutdown app.telem ctx) Goroutine.ret)
  let j := wg.Wait sched r.2
  ⟨some (errors.Append serverErr j.1), j.2.1, t1 ++ j.2.2⟩

end observer_app

/-! ## src/app/observer/app.go -/

namespace observer

/-- The struct `App` of the variant without health checker and telemetry. -/
structure App where
  server : Ptr server.Server := none
  client : Ptr youlessclient.Client := none
  observer : Ptr youlessobserver.Observer := none
  deriving DecidableEq, Repr

/-- The method `Run`: start the internal observer, then run the server. -/
def Run {σ : Type} (w : World σ) (app : App) (ctx : Context) (s : σ) :
    Exec σ GoError :=
  let r := w.observerStart app.observer s
  let t1 := [Event.observerStart app.observer r.1]
  if r.1 ≠ none then
    ⟨some r.1, r.2, t1⟩
  else
  let r2 := w.serverRun app.server ctx r.2
  ⟨some r2.1, r2.2, t1 ++ [Event.serverRun app.server ctx r2.1]⟩

/-- The method `Shutdown`: the operands of `errors.Append` are evaluated left
to right, the observer's `Stop` before the server's `Shutdown`. -/
def Shutdown {σ : Type} (w : World σ) (app : App) (ctx : Context) (s : σ) :
    Exec σ GoError :=
  let r1 := w.observerStop app.observer s
  let r2 := w.serverShutdown app.server ctx r1.2
  ⟨some (errors.Append r1.1 r2.1), r2.2,
    [Event.observerStop app.observer r1.1, Event.serverShutdown app.server ctx r2.1]⟩

end observer

/-! ## Concrete worlds

The world state of a stub is the number of collaborator calls made so far. -/

/-- A stub world.  Constructors hand out the instance whose address is the
stage number; the constructor of stage `failStage` fails with `failure`
instead.  `stopErr`, `flushErr`, `teardownErr`, `serverErr`, `startErr` and
`runErr` are what the lifecycle methods return. -/
def stubWorld (failStage : Nat) (failure : Err)
    (startErr runErr serverErr stopErr flushErr teardownErr : GoError) : World Nat where
  healthcheckNew := fun s =>
    (if failStage = 1 then (none, some failure) else (some ⟨1⟩, none), s + 1)
  setupTelemetry := fun _ _ _ _ s =>
    (if failStage = 2 then (none, some failure) else (some ⟨2⟩, none), s + 1)
  serverNew := fun _ _ _ _ _ s =>
    (if failStage = 3 then (none, some failure) else (some ⟨3⟩, none), s + 1)
  NewClient := fun _ _ s =>
    (if failStage = 4 then (none, some failure) else (some ⟨4⟩, none), s + 1)
  NewObserver := fun _ _ s =>
    (if failStage = 5 then (none, some failure) else (some ⟨5⟩, none), s + 1)
  RegisterHealthCheckers := fun _ _ s => s + 1
  observerStart := fun _ s => (startErr, s + 1)
  observerStop := fun _ s => (stopErr, s + 1)
  serverRun := fun _ _ s => (runErr, s + 1)
  serverShutdown := fun _ _ s => (serverErr, s + 1)
  ForceFlush := fun _ _ s => (flushErr, s + 1)
  telemetryShutdown := fun _ _ s => (teardownErr, s + 1)

/-- A stub world in which every call succeeds. -/
def okWorld : World Nat := stubWorld 0 (Err.msg "") none none none none none none

/-- A stub world in which the constructor of stage `k` fails with "boom". -/
def boomWorld (k : Nat) : World Nat :=
  stubWorld k (Err.msg "boom") none none none none none none

/-- A stub world in which the server's shutdown, the observer's stop and the
telemetry flush fail with "e1", "e2" and "e3". -/
def failingShutdownWorld : World Nat :=
  stubWorld 0 (Err.msg "") none none
    (some (Err.msg "e1")) (some (Err.msg "e2")) (some (Err.msg "e3")) none

/-- A stub world in which only the server's shutdown fails, with "e1". -/
def serverFailsWorld : World Nat :=
  stubWorld 0 (Err.msg "") none none (some (Err.msg "e1")) none none none

/-- A stub world in which only the observer's stop fails, with "e2". -/
def stopFailsWorld : World Nat :=
  stubWorld 0 (Err.msg "") none none none (some (Err.msg "e2")) none none

/-- A stub world in which only the telemetry flush fails, with "e3". -/
def flushFailsWorld : World Nat :=
  stubWorld 0 (Err.msg "") none none none none (some (Err.msg "e3")) none

/-- A stub world in which only the telemetry shutdown fails, with "e4". -/
def teardownFailsWorld : World Nat :=
  stubWorld 0 (Err.msg "") none none none none none (some (Err.msg "e4"))

/-- A configuration with an unset telemetry service name. -/
def sampleConfig : observer_app.Config :=
  { Server := ⟨10⟩, Telemetry := ⟨"", [("Endpoint", "localhost:4317")]⟩,
    YouLess := ⟨11⟩, Observer := ⟨⟨12⟩, ⟨13⟩⟩ }

/-- A non-nil logger. -/
def sampleLog : Ptr logging.Logger := some ⟨⟨7⟩⟩

/-- A non-nil build info. -/
def sampleBld : Ptr buildinfo.BuildInfo := some ⟨8⟩

/-- A coordinator with every component set. -/
def sampleApp : observer_app.App :=
  { telem := some ⟨2⟩, health := some ⟨1⟩, server := some ⟨3⟩, client := some ⟨4⟩,
    observer := some ⟨5⟩ }

/-! ## Facts about the error helpers -/

/-- An aggregate is nil exactly when both sides are nil. -/
theorem Append_eq_none_iff (a b : GoError) :
    errors.Append a b = none ↔ a = none ∧ b = none := by
  cases a <;> cases b <;> simp [errors.Append]

/-- A nil left side contributes nothing. -/
theorem Append_none_left (b : GoError) : errors.Append none b = b := by
  cases b <;> rfl

/-- A nil right side contributes nothing. -/
theorem Append_none_right (a : GoError) : errors.Append a none = a := by
  cases a <;> rfl

/-- Every error contains itself. -/
theorem Err.contains_self (e : Err) : e.contains e = true := by
  cases e <;> simp [Err.contains]

/-- What the left side contains, the aggregate contains. -/
theorem contains_Append_left (a b : GoError) (x : Err)
    (h : GoError.contains a x = true) : GoError.contains (errors.Append a b) x = true := by
  cases a with
  | none => simp [GoError.contains] at h
  | some l =>
    cases b with
    | none => simpa [errors.Append] using h
    | some r =>
      simp only [GoError.contains] at h
      simp [errors.Append, GoError.contains, Err.contains, h]

/-- What the right side contains, the aggregate contains. -/
theorem contains_Append_right (a b : GoError) (x : Err)
    (h : GoError.contains b x = true) : GoError.contains (errors.Append a b) x = true := by
  cases b with
  | none => simp [GoError.contains] at h
  | some r =>
    cases a with
    | none => simpa [errors.Append] using h
    | some l =>
      simp only [GoError.contains] at h
      simp [errors.Append, GoError.contains, Err.contains, h]

/-- A non-nil error contains itself. -/
theorem contains_some_self (e : Err) : GoError.contains (some e) e = true := by
  simp [GoError.contains, Err.contains_self]

/-! ## Construction -/

namespace observer_app

/-- The configuration after lines 53 to 55 differs from the caller's in the
telemetry service name only. -/
theorem conf_fields (conf : Config) :
    let c : Config := if conf.Telemetry.ServiceName = "" then
      { conf with Telemetry := { conf.Telemetry with ServiceName := "youless-" ++ Name } }
      else conf
    c.Server = conf.Server ∧ c.YouLess = conf.YouLess ∧ c.Observer = conf.Observer ∧
    c.Telemetry = telemetryConf conf := by
  intro c
  by_cases hn : conf.Telemetry.ServiceName = "" <;> simp [c, hn, telemetryConf]

/-- The run of `New` when the health checker cannot be created. -/
theorem New_health_fails {σ : Type} (w : World σ) (conf : Config)
    (bld : Ptr buildinfo.BuildInfo) (s : σ)
    (log : Ptr logging.Logger)
    (p : Ptr healthcheck.Checker) (e : Err) (s1 : σ)
    (h1 : w.healthcheckNew s = ((p, some e), s1)) :
    New w conf log bld s =
      ⟨some (none, some (Err.wrap e ErrCreateHealthCheck)), s1,
        [Event.healthcheckNew p (some e)]⟩ := by
  unfold New
  simp only [h1, errors.Wrap, ne_eq, not_false_eq_true, if_true, reduceCtorEq]

/-- The run of `New` on a nil logger, once the health checker exists. -/
theorem New_log_nil {σ : Type} (w : World σ) (conf : Config)
    (bld : Ptr buildinfo.BuildInfo) (s : σ)
    (h : Ptr healthcheck.Checker) (s1 : σ)
    (h1 : w.healthcheckNew s = ((h, none), s1)) :
    New w conf none bld s = ⟨none, s1, [Event.healthcheckNew h none]⟩ := by
  unfold New
  simp only [h1, ne_eq, not_true_eq_false, if_false]

/-- The run of `New` when `setupTelemetry` fails. -/
theorem New_telemetry_fails {σ : Type} (w : World σ) (conf : Config) (lg : logging.Logger)
    (bld : Ptr buildinfo.BuildInfo) (s : σ)
    (h : Ptr healthcheck.Checker) (s1 : σ) (p : Ptr telemetry.Telemetry) (e : Err) (s2 : σ)
    (h1 : w.healthcheckNew s = ((h, none), s1))
    (h2 : w.setupTelemetry (telemetryConf conf) (some lg.Logger) bld h s1
      = ((p, some e), s2)) :
    New w conf (some lg) bld s =
      ⟨some (none, some (Err.wrap e ErrSetupTelemetry)), s2,
        [Event.healthcheckNew h none,
         Event.setupTelemetry (telemetryConf conf) (some lg.Logger) bld h p (some e)]⟩ := by
  obtain ⟨hc1, hc2, hc3, hc4⟩ := conf_fields conf
  unfold New
  simp only [h1, ne_eq, not_true_eq_false, if_false]
  simp only [hc1, hc2, hc3, hc4, h2]
  simp [errors.Wrap]

/-- The run of `New` when `server.New` fails. -/
theorem New_server_fails {σ : Type} (w : World σ) (conf : Config) (lg : logging.Logger)
    (bld : Ptr buildinfo.BuildInfo) (s : σ)
    (h : Ptr healthcheck.Checker) (s1 : σ) (t : Ptr telemetry.Telemetry) (s2 : σ)
    (p : Ptr server.Server) (e : Err) (s3 : σ)
    (h1 : w.healthcheckNew s = ((h, none), s1))
    (h2 : w.setupTelemetry (telemetryConf conf) (some lg.Logger) bld h s1
      = ((t, none), s2))
    (h3 : w.serverNew Name conf.Server (some lg) t
      [server.Opt.WithBuildInfo bld, server.Opt.WithHealthChecker h] s2
      = ((p, some e), s3)) :
    New w conf (some lg) bld s =
      ⟨some (none, some (Err.wrap e ErrCreateServer)), s3,
        [Event.healthcheckNew h none,
         Event.setupTelemetry (telemetryConf conf) (some lg.Logger) bld h t none,
         Event.serverNew Name conf.Server (some lg) t
          [server.Opt.WithBuildInfo bld, server.Opt.WithHealthChecker h] p (some e)]⟩ := by
  obtain ⟨hc1, hc2, hc3, hc4⟩ := conf_fields conf
  unfold New
  simp only [h1, ne_eq, not_true_eq_false, if_false]
  simp only [hc1, hc2, hc3, hc4, h2, h3]
  simp [errors.Wrap]

/-- The run of `New` when `youlessclient.NewClient` fails. -/
theorem New_client_fails {σ : Type} (w : World σ) (conf : Config) (lg : logging.Logger)
    (bld : Ptr buildinfo.BuildInfo) (s : σ)
    (h : Ptr healthcheck.Checker) (s1 : σ) (t : Ptr telemetry.Telemetry) (s2 : σ)
    (sv : Ptr server.Server) (s3 : σ) (p : Ptr youlessclient.Client) (e : Err) (s4 : σ)
    (h1 : w.healthcheckNew s = ((h, none), s1))
    (h2 : w.setupTelemetry (telemetryConf conf) (some lg.Logger) bld h s1
      = ((t, none), s2))
    (h3 : w.serverNew Name conf.Server (some lg) t
      [server.Opt.WithBuildInfo bld, server.Opt.WithHealthChecker h] s2
      = ((sv, none), s3))
    (h4 : w.NewClient conf.YouLess
      [youlessclient.Opt.WithLogger (some lg), youlessclient.Opt.WithTracerProvider ⟨t⟩] s3
      = ((p, some e), s4)) :
    New w conf (some lg) bld s =
      ⟨some (none, some (Err.wrap e ErrCreateClient)), s4,
        [Event.healthcheckNew h none,
         Event.setupTelemetry (telemetryConf conf) (some lg.Logger) bld h t none,
         Event.serverNew Name conf.Server (some lg) t
          [server.Opt.WithBuildInfo bld, server.Opt.WithHealthChecker h] sv none,
         Event.NewClient conf.YouLess
          [youlessclient.Opt.WithLogger (some lg), youlessclient.Opt.WithTracerProvider ⟨t⟩]
          p (some e)]⟩ := by
  obtain ⟨hc1, hc2, hc3, hc4⟩ := conf_fields conf
  unfold New
  simp only [h1, ne_eq, not_true_eq_false, if_false]
  simp only [hc1, hc2, hc3, hc4, h2, h3, h4]
  simp [errors.Wrap]

/-- The run of `New` when `youlessobserver.NewObserver` fails. -/
theorem New_observer_fails {σ : Type} (w : World σ) (conf : Config) (lg : logging.Logger)
    (bld : Ptr buildinfo.BuildInfo) (s : σ)
    (h : Ptr healthcheck.Checker) (s1 : σ) (t : Ptr telemetry.Telemetry) (s2 : σ)
    (sv : Ptr server.Server) (s3 : σ) (c : Ptr youlessclient.Client) (s4 : σ)
    (p : Ptr youlessobserver.Observer) (e : Err) (s5 : σ)
    (h1 : w.healthcheckNew s = ((h, none), s1))
    (h2 : w.setupTelemetry (telemetryConf conf) (some lg.Logger) bld h s1
      = ((t, none), s2))
    (h3 : w.serverNew Name conf.Server (some lg) t
      [server.Opt.WithBuildInfo bld, server.Opt.WithHealthChecker h] s2
      = ((sv, none), s3))
    (h4 : w.NewClient conf.YouLess
      [youlessclient.Opt.WithLogger (some lg), youlessclient.Opt.WithTracerProvider ⟨t⟩] s3
      = ((c, none), s4))
    (h5 : w.NewObserver ⟨t⟩
      [youlessobserver.Opt.WithLogger (some ⟨lg.Logger⟩),
       youlessobserver.Opt.WithMeterReading conf.Observer.MeterReadingRegisterer c,
       youlessobserver.Opt.WithPhaseReading conf.Observer.PhaseReadingRegisterer c] s4
      = ((p, some e), s5)) :
    New w conf (some lg) bld s =
      ⟨some (none, some (Err.wrap e ErrCreateObserver)), s5,
        [Event.healthcheckNew h none,
         Event.setupTelemetry (telemetryConf conf) (some lg.Logger) bld h t none,
         Event.serverNew Name conf.Server (some lg) t
          [server.Opt.WithBuildInfo bld, server.Opt.WithHealthChecker h] sv none,
         Event.NewClient conf.YouLess
          [youlessclient.Opt.WithLogger (some lg), youlessclient.Opt.WithTracerProvider ⟨t⟩]
          c none,
         Event.NewObserver ⟨t⟩
          [youlessobserver.Opt.WithLogger (some ⟨lg.Logger⟩),
           youlessobserver.Opt.WithMeterReading conf.Observer.MeterReadingRegisterer c,
           youlessobserver.Opt.WithPhaseReading conf.Observer.PhaseReadingRegisterer c]
          p (some e)]⟩ := by
  obtain ⟨hc1, hc2, hc3, hc4⟩ := conf_fields conf
  unfold New
  simp only [h1, ne_eq, not_true_eq_false, if_false]
  simp only [hc1, hc2, hc3, hc4, h2, h3, h4, h5]
  simp [errors.Wrap]

/-- The run of `New` when every stage succeeds. -/
theorem New_succeeds {σ : Type} (w : World σ) (conf : Config) (lg : logging.Logger)
    (bld : Ptr buildinfo.BuildInfo) (s : σ)
    (h : Ptr healthcheck.Checker) (s1 : σ) (t : Ptr telemetry.Telemetry) (s2 : σ)
    (sv : Ptr server.Server) (s3 : σ) (c : Ptr youlessclient.Client) (s4 : σ)
    (o : Ptr youlessobserver.Observer) (s5 : σ)
    (h1 : w.healthcheckNew s = ((h, none), s1))
    (h2 : w.setupTelemetry (telemetryConf conf) (some lg.Logger) bld h s1
      = ((t, none), s2))
    (h3 : w.serverNew Name conf.Server (some lg) t
      [server.Opt.WithBuildInfo bld, server.Opt.WithHealthChecker h] s2
      = ((sv, none), s3))
    (h4 : w.NewClient conf.YouLess
      [youlessclient.Opt.WithLogger (some lg), youlessclient.Opt.WithTracerProvider ⟨t⟩] s3
      = ((c, none), s4))
    (h5 : w.NewObserver ⟨t⟩
      [youlessobserver.Opt.WithLogger (some ⟨lg.Logger⟩),
       youlessobserver.Opt.WithMeterReading conf.Observer.MeterReadingRegisterer c,
       youlessobserver.Opt.WithPhaseReading conf.Observer.PhaseReadingRegisterer c] s4
      = ((o, none), s5)) :
    New w conf (some lg) bld s =
      ⟨some (some { telem := none, health := h, server := sv, client := c, observer := o },
          none),
        w.RegisterHealthCheckers o h s5,
        [Event.healthcheckNew h none,
         Event.setupTelemetry (telemetryConf conf) (some lg.Logger) bld h t none,
         Event.serverNew Name conf.Server (some lg) t
          [server.Opt.WithBuildInfo bld, server.Opt.WithHealthChecker h] sv none,
         Event.NewClient conf.YouLess
          [youlessclient.Opt.WithLogger (some lg), youlessclient.Opt.WithTracerProvider ⟨t⟩]
          c none,
         Event.NewObserver ⟨t⟩
          [youlessobserver.Opt.WithLogger (some ⟨lg.Logger⟩),
           youlessobserver.Opt.WithMeterReading conf.Observer.MeterReadingRegisterer c,
           youlessobserver.Opt.WithPhaseReading conf.Observer.PhaseReadingRegisterer c]
          o none,
         Event.RegisterHealthCheckers o h]⟩ := by
  obtain ⟨hc1, hc2, hc3, hc4⟩ := conf_fields conf
  unfold New
  simp only [h1, ne_eq, not_true_eq_false, if_false]
  simp only [hc1, hc2, hc3, hc4, h2, h3, h4, h5]
  simp


/-- Every run of `New` ends in one of seven ways: a failure of one of the five
stages, the panic on a nil logger, or success. -/
theorem New_elim {σ : Type} (w : World σ) (conf : Config) (log : Ptr logging.Logger)
    (bld : Ptr buildinfo.BuildInfo) (s : σ) (P : Exec σ (Ptr App × GoError) → Prop)
    (c1 : ∀ p e s1, (w.healthcheckNew s).1.2 = some e →
      P ⟨some (none, some (Err.wrap e ErrCreateHealthCheck)), s1,
        [Event.healthcheckNew p (some e)]⟩)
    (c0 : ∀ h s1, log = none → P ⟨none, s1, [Event.healthcheckNew h none]⟩)
    (c2 : ∀ lg h p e s2, log = some lg →
      P ⟨some (none, some (Err.wrap e ErrSetupTelemetry)), s2,
        [Event.healthcheckNew h none,
         Event.setupTelemetry (telemetryConf conf) (some lg.Logger) bld h p (some e)]⟩)
    (c3 : ∀ lg h t p e s3, log = some lg →
      P ⟨some (none, some (Err.wrap e ErrCreateServer)), s3,
        [Event.healthcheckNew h none,
         Event.setupTelemetry (telemetryConf conf) (some lg.Logger) bld h t none,
         Event.serverNew Name conf.Server (some lg) t
          [server.Opt.WithBuildInfo bld, server.Opt.WithHealthChecker h] p (some e)]⟩)
    (c4 : ∀ lg h t sv p e s4, log = some lg →
      P ⟨some (none, some (Err.wrap e ErrCreateClient)), s4,
        [Event.healthcheckNew h none,
         Event.setupTelemetry (telemetryConf conf) (some lg.Logger) bld h t none,
         Event.serverNew Name conf.Server (some lg) t
          [server.Opt.WithBuildInfo bld, server.Opt.WithHealthChecker h] sv none,
         Event.NewClient conf.YouLess
          [youlessclient.Opt.WithLogger (some lg), youlessclient.Opt.WithTracerProvider ⟨t⟩]
          p (some e)]⟩)
    (c5 : ∀ lg h t sv c p e s5, log = some lg →
      P ⟨some (none, some (Err.wrap e ErrCreateObserver)), s5,
        [Event.healthcheckNew h none,
         Event.setupTelemetry (telemetryConf conf) (some lg.Logger) bld h t none,
         Event.serverNew Name conf.Server (some lg) t
          [server.Opt.WithBuildInfo bld, server.Opt.WithHealthChecker h] sv none,
         Event.NewClient conf.YouLess
          [youlessclient.Opt.WithLogger (some lg), youlessclient.Opt.WithTracerProvider ⟨t⟩]
          c none,
         Event.NewObserver ⟨t⟩
          [youlessobserver.Opt.WithLogger (some ⟨lg.Logger⟩),
           youlessobserver.Opt.WithMeterReading conf.Observer.MeterReadingRegisterer c,
           youlessobserver.Opt.WithPhaseReading conf.Observer.PhaseReadingRegisterer c]
          p (some e)]⟩)
    (c6 : ∀ lg h t sv c o s6, log = some lg →
      P ⟨some (some { telem := none, health := h, server := sv, client := c, observer := o },
          none), s6,
        [Event.healthcheckNew h none,
         Event.setupTelemetry (telemetryConf conf) (some lg.Logger) bld h t none,
         Event.serverNew Name conf.Server (some lg) t
          [server.Opt.WithBuildInfo bld, server.Opt.WithHealthChecker h] sv none,
         Event.NewClient conf.YouLess
          [youlessclient.Opt.WithLogger (some lg), youlessclient.Opt.WithTracerProvider ⟨t⟩]
          c none,
         Event.NewObserver ⟨t⟩
          [youlessobserver.Opt.WithLogger (some ⟨lg.Logger⟩),
           youlessobserver.Opt.WithMeterReading conf.Observer.MeterReadingRegisterer c,
           youlessobserver.Opt.WithPhaseReading conf.Observer.PhaseReadingRegisterer c]
          o none,
         Event.RegisterHealthCheckers o h]⟩) :
    P (New w conf log bld s) := by
  rcases h1 : w.healthcheckNew s with ⟨⟨h, _ | e⟩, s1⟩
  swap
  · rw [New_health_fails w conf bld s log h e s1 h1]; exact c1 _ _ _ (by rw [h1])
  cases log with
  | none => rw [New_log_nil w conf bld s h s1 h1]; exact c0 _ _ rfl
  | some lg =>
  rcases h2 : w.setupTelemetry (telemetryConf conf) (some lg.Logger) bld h s1
    with ⟨⟨t, _ | e⟩, s2⟩
  swap
  · rw [New_telemetry_fails w conf lg bld s h s1 t e s2 h1 h2]; exact c2 _ _ _ _ _ rfl
  rcases h3 : w.serverNew Name conf.Server (some lg) t
      [server.Opt.WithBuildInfo bld, server.Opt.WithHealthChecker h] s2
    with ⟨⟨sv, _ | e⟩, s3⟩
  swap
  · rw [New_server_fails w conf lg bld s h s1 t s2 sv e s3 h1 h2 h3]
    exact c3 _ _ _ _ _ _ rfl
  rcases h4 : w.NewClient conf.YouLess
      [youlessclient.Opt.WithLogger (some lg), youlessclient.Opt.WithTracerProvider ⟨t⟩] s3
    with ⟨⟨c, _ | e⟩, s4⟩
  swap
  · rw [New_client_fails w conf lg bld s h s1 t s2 sv s3 c e s4 h1 h2 h3 h4]
    exact c4 _ _ _ _ _ _ _ rfl
  rcases h5 : w.NewObserver ⟨t⟩
      [youlessobserver.Opt.WithLogger (some ⟨lg.Logger⟩),
       youlessobserver.Opt.WithMeterReading conf.Observer.MeterReadingRegisterer c,
       youlessobserver.Opt.WithPhaseReading conf.Observer.PhaseReadingRegisterer c] s4
    with ⟨⟨o, _ | e⟩, s5⟩
  swap
  · rw [New_observer_fails w conf lg bld s h s1 t s2 sv s3 c s4 o e s5 h1 h2 h3 h4 h5]
    exact c5 _ _ _ _ _ _ _ _ rfl
  rw [New_succeeds w conf lg bld s h s1 t s2 sv s3 c s4 o s5 h1 h2 h3 h4 h5]
  exact c6 _ _ _ _ _ _ _ rfl

/-- C1. Construction is fail-fast.  The five stage tags are pairwise distinct,
and for each stage (health checker, telemetry, server, client, observer), when
all earlier stages succeed and the stage's constructor returns a failure `e`,
`New` returns a nil coordinator with the error `e` wrapped in that stage's
tag, having called the constructors up to that stage and nothing after it
(no later constructor, no `RegisterHealthCheckers`). -/
theorem New_fail_fast {σ : Type} (w : World σ) (conf : Config)
    (log : Ptr logging.Logger) (bld : Ptr buildinfo.BuildInfo) (s : σ) :
    [ErrCreateHealthCheck, ErrSetupTelemetry, ErrCreateServer, ErrCreateClient,
      ErrCreateObserver].Nodup ∧
    (∀ p e s1, w.healthcheckNew s = ((p, some e), s1) →
      (New w conf log bld s).out = some (none, some (Err.wrap e ErrCreateHealthCheck)) ∧
      (New w conf log bld s).trace.map Event.kind = [Kind.healthcheckNew]) ∧
    (∀ lg h s1, log = some lg → w.healthcheckNew s = ((h, none), s1) →
      (∀ p e s2,
        w.setupTelemetry
          (if conf.Telemetry.ServiceName = "" then
            { conf.Telemetry with ServiceName := "youless-" ++ Name }
          else conf.Telemetry)
          (some lg.Logger) bld h s1 = ((p, some e), s2) →
        (New w conf log bld s).out = some (none, some (Err.wrap e ErrSetupTelemetry)) ∧
        (New w conf log bld s).trace.map Event.kind
          = [Kind.healthcheckNew, Kind.setupTelemetry]) ∧
      (∀ t s2,
        w.setupTelemetry
          (if conf.Telemetry.ServiceName = "" then
            { conf.Telemetry with ServiceName := "youless-" ++ Name }
          else conf.Telemetry)
          (some lg.Logger) bld h s1 = ((t, none), s2) →
        (∀ p e s3,
          w.serverNew Name conf.Server (some lg) t
            [server.Opt.WithBuildInfo bld, server.Opt.WithHealthChecker h] s2
            = ((p, some e), s3) →
          (New w conf log bld s).out = some (none, some (Err.wrap e ErrCreateServer)) ∧
          (New w conf log bld s).trace.map Event.kind
            = [Kind.healthcheckNew, Kind.setupTelemetry, Kind.serverNew]) ∧
        (∀ sv s3,
          w.serverNew Name conf.Server (some lg) t
            [server.Opt.WithBuildInfo bld, server.Opt.WithHealthChecker h] s2
            = ((sv, none), s3) →
          (∀ p e s4,
            w.NewClient conf.YouLess
              [youlessclient.Opt.WithLogger (some lg),
               youlessclient.Opt.WithTracerProvider ⟨t⟩] s3
              = ((p, some e), s4) →
            (New w conf log bld s).out = some (none, some (Err.wrap e ErrCreateClient)) ∧
            (New w conf log bld s).trace.map Event.kind
              = [Kind.healthcheckNew, Kind.setupTelemetry, Kind.serverNew,
                 Kind.NewClient]) ∧
          (∀ c s4,
            w.NewClient conf.YouLess
              [youlessclient.Opt.WithLogger (some lg),
               youlessclient.Opt.WithTracerProvider ⟨t⟩] s3
              = ((c, none), s4) →
            ∀ p e s5,
              w.NewObserver ⟨t⟩
                [youlessobserver.Opt.WithLogger (some ⟨lg.Logger⟩),
                 youlessobserver.Opt.WithMeterReading
                  conf.Observer.MeterReadingRegisterer c,
                 youlessobserver.Opt.WithPhaseReading
                  conf.Observer.PhaseReadingRegisterer c] s4
                = ((p, some e), s5) →
              (New w conf log bld s).out
                = some (none, some (Err.wrap e ErrCreateObserver)) ∧
              (New w conf log bld s).trace.map Event.kind
                = [Kind.healthcheckNew, Kind.setupTelemetry, Kind.serverNew,
                   Kind.NewClient, Kind.NewObserver])))) := by
  refine ⟨by decide, ?_, ?_⟩
  · intro p e s1 h1
    rw [New_health_fails w conf bld s log p e s1 h1]
    exact ⟨rfl, rfl⟩
  intro lg h s1 hlog h1
  subst hlog
  refine ⟨?_, ?_⟩
  · intro p e s2 h2
    rw [New_telemetry_fails w conf lg bld s h s1 p e s2 h1 h2]
    exact ⟨rfl, rfl⟩
  intro t s2 h2
  refine ⟨?_, ?_⟩
  · intro p e s3 h3
    rw [New_server_fails w conf lg bld s h s1 t s2 p e s3 h1 h2 h3]
    exact ⟨rfl, rfl⟩
  intro sv s3 h3
  refine ⟨?_, ?_⟩
  · intro p e s4 h4
    rw [New_client_fails w conf lg bld s h s1 t s2 sv s3 p e s4 h1 h2 h3 h4]
    exact ⟨rfl, rfl⟩
  intro c s4 h4 p e s5 h5
  rw [New_observer_fails w conf lg bld s h s1 t s2 sv s3 c s4 p e s5 h1 h2 h3 h4 h5]
  exact ⟨rfl, rfl⟩

/-- The witness of `New_fail_fast`: the health checker stage, the server stage
and the observer stage failing with "boom". -/
theorem New_fail_fast_witness :
    ((New (boomWorld 1) sampleConfig sampleLog sampleBld 0).out
        = some (none, some (Err.wrap (Err.msg "boom") ErrCreateHealthCheck)) ∧
      (New (boomWorld 1) sampleConfig sampleLog sampleBld 0).trace.map Event.kind
        = [Kind.healthcheckNew]) ∧
    ((New (boomWorld 3) sampleConfig sampleLog sampleBld 0).out
        = some (none, some (Err.wrap (Err.msg "boom") ErrCreateServer)) ∧
      (New (boomWorld 3) sampleConfig sampleLog sampleBld 0).trace.map Event.kind
        = [Kind.healthcheckNew, Kind.setupTelemetry, Kind.serverNew]) ∧
    ((New (boomWorld 5) sampleConfig sampleLog sampleBld 0).out
        = some (none, some (Err.wrap (Err.msg "boom") ErrCreateObserver)) ∧
      (New (boomWorld 5) sampleConfig sampleLog sampleBld 0).trace.map Event.kind
        = [Kind.healthcheckNew, Kind.setupTelemetry, Kind.serverNew, Kind.NewClient,
           Kind.NewObserver]) :=
  ⟨(New_fail_fast (boomWorld 1) sampleConfig sampleLog sampleBld 0).2.1
      none (Err.msg "boom") 1 rfl,
   (((New_fail_fast (boomWorld 3) sampleConfig sampleLog sampleBld 0).2.2
      ⟨⟨7⟩⟩ (some ⟨1⟩) 1 rfl rfl).2 (some ⟨2⟩) 2 rfl).1 none (Err.msg "boom") 3 rfl,
   ((((New_fail_fast (boomWorld 5) sampleConfig sampleLog sampleBld 0).2.2
      ⟨⟨7⟩⟩ (some ⟨1⟩) 1 rfl rfl).2 (some ⟨2⟩) 2 rfl).2 (some ⟨3⟩) 3 rfl).2
      (some ⟨4⟩) 4 rfl none (Err.msg "boom") 5 rfl⟩

/-- Whenever `New` returns a coordinator, its `health`, `server`, `client` and
`observer` fields hold what the constructors returned, and its `telem` field
is nil although `setupTelemetry` was called and succeeded. -/
theorem New_success_fields {σ : Type} (w : World σ) (conf : Config)
    (log : Ptr logging.Logger) (bld : Ptr buildinfo.BuildInfo) (s : σ) (app : App)
    (err : GoError) (h : (New w conf log bld s).out = some (some app, err)) :
    err = none ∧ app.telem = none ∧
    (∃ c l b hc t, Event.setupTelemetry c l b hc t none ∈ (New w conf log bld s).trace) ∧
    Event.healthcheckNew app.health none ∈ (New w conf log bld s).trace ∧
    (∃ n c l t o, Event.serverNew n c l t o app.server none
      ∈ (New w conf log bld s).trace) ∧
    (∃ c o, Event.NewClient c o app.client none ∈ (New w conf log bld s).trace) ∧
    (∃ m o, Event.NewObserver m o app.observer none ∈ (New w conf log bld s).trace) := by
  revert h
  refine New_elim w conf log bld s
    (fun x => x.out = some (some app, err) → err = none ∧ app.telem = none ∧
      (∃ c l b hc t, Event.setupTelemetry c l b hc t none ∈ x.trace) ∧
      Event.healthcheckNew app.health none ∈ x.trace ∧
      (∃ n c l t o, Event.serverNew n c l t o app.server none ∈ x.trace) ∧
      (∃ c o, Event.NewClient c o app.client none ∈ x.trace) ∧
      (∃ m o, Event.NewObserver m o app.observer none ∈ x.trace)) ?_ ?_ ?_ ?_ ?_ ?_ ?_
  all_goals intros
  all_goals simp_all
  intro h _
  subst h
  simp

/-- C2 (the code departs from the claim). With every constructor succeeding,
`New` returns a coordinator whose `telem` field is nil, although
`setupTelemetry` returned the telemetry instance at address 2; the other four
fields hold the created instances. -/
theorem New_telem_field_unset :
    (New okWorld sampleConfig sampleLog sampleBld 0).out
      = some (some ⟨none, some ⟨1⟩, some ⟨3⟩, some ⟨4⟩, some ⟨5⟩⟩, none) ∧
    Event.setupTelemetry ⟨"youless-observer", [("Endpoint", "localhost:4317")]⟩
      (some ⟨7⟩) (some ⟨8⟩) (some ⟨1⟩) (some ⟨2⟩) none
      ∈ (New okWorld sampleConfig sampleLog sampleBld 0).trace := by
  decide


/-- C8 (as stated, refuted). A health checker failure is not wrapped with the
text "health checker creation failed", nor a telemetry failure with "telemetry
setup failed", nor the failures of the server, client and observer stages with
"server creation failed", "client creation failed" and "observer creation
failed". -/
theorem New_tag_text_differs :
    (New (boomWorld 1)
        sampleConfig sampleLog sampleBld 0).out
      ≠ some (none, some (Err.wrap (Err.msg "boom") "health checker creation failed")) ∧
    (New (boomWorld 2)
        sampleConfig sampleLog sampleBld 0).out
      ≠ some (none, some (Err.wrap (Err.msg "boom") "telemetry setup failed")) ∧
    (New (boomWorld 3)
        sampleConfig sampleLog sampleBld 0).out
      ≠ some (none, some (Err.wrap (Err.msg "boom") "server creation failed")) ∧
    (New (boomWorld 4)
        sampleConfig sampleLog sampleBld 0).out
      ≠ some (none, some (Err.wrap (Err.msg "boom") "client creation failed")) ∧
    (New (boomWorld 5)
        sampleConfig sampleLog sampleBld 0).out
      ≠ some (none, some (Err.wrap (Err.msg "boom") "observer creation failed")) := by
  decide

/-- C8 (amended). Whenever a constructor called by `New` returns a failure
`cause`, `New` returns a nil coordinator and `cause` wrapped with the text of
that stage's constant: "failed to create health checker", "failed to set up
telemetry", "failed to create server", "failed to create client" or "failed to
create observer". -/
theorem New_error_tag_text {σ : Type} (w : World σ) (conf : Config)
    (log : Ptr logging.Logger) (bld : Ptr buildinfo.BuildInfo) (s : σ)
    (ev : Event) (cause : Err)
    (hev : ev ∈ (New w conf log bld s).trace) (herr : ev.err = some cause) :
    (ev.kind = Kind.healthcheckNew ∧ (New w conf log bld s).out
      = some (none, some (Err.wrap cause "failed to create health checker"))) ∨
    (ev.kind = Kind.setupTelemetry ∧ (New w conf log bld s).out
      = some (none, some (Err.wrap cause "failed to set up telemetry"))) ∨
    (ev.kind = Kind.serverNew ∧ (New w conf log bld s).out
      = some (none, some (Err.wrap cause "failed to create server"))) ∨
    (ev.kind = Kind.NewClient ∧ (New w conf log bld s).out
      = some (none, some (Err.wrap cause "failed to create client"))) ∨
    (ev.kind = Kind.NewObserver ∧ (New w conf log bld s).out
      = some (none, some (Err.wrap cause "failed to create observer"))) := by
  revert hev
  refine New_elim w conf log bld s
    (fun x => ev ∈ x.trace →
      (ev.kind = Kind.healthcheckNew ∧ x.out
        = some (none, some (Err.wrap cause "failed to create health checker"))) ∨
      (ev.kind = Kind.setupTelemetry ∧ x.out
        = some (none, some (Err.wrap cause "failed to set up telemetry"))) ∨
      (ev.kind = Kind.serverNew ∧ x.out
        = some (none, some (Err.wrap cause "failed to create server"))) ∨
      (ev.kind = Kind.NewClient ∧ x.out
        = some (none, some (Err.wrap cause "failed to create client"))) ∨
      (ev.kind = Kind.NewObserver ∧ x.out
        = some (none, some (Err.wrap cause "failed to create observer")))) ?_ ?_ ?_ ?_ ?_ ?_ ?_
  all_goals
    intros
    beta_reduce
    intro hmem
    simp only [List.mem_cons, List.mem_singleton, List.not_mem_nil, or_false] at hmem
    rcases hmem with rfl | rfl | rfl | rfl | rfl | rfl <;>
      simp_all [Event.err, Event.kind, ErrCreateHealthCheck, ErrSetupTelemetry,
        ErrCreateServer, ErrCreateClient, ErrCreateObserver]

/-- The witness of `New_error_tag_text`: the server stage fails with "boom". -/
theorem New_error_tag_text_witness :
    (Event.kind (Event.serverNew "observer" ⟨10⟩ sampleLog (some ⟨2⟩)
        [server.Opt.WithBuildInfo sampleBld, server.Opt.WithHealthChecker (some ⟨1⟩)]
        none (some (Err.msg "boom"))) = Kind.healthcheckNew ∧
      (New (boomWorld 3)
        sampleConfig sampleLog sampleBld 0).out
      = some (none, some (Err.wrap (Err.msg "boom") "failed to create health checker"))) ∨
    (Event.kind (Event.serverNew "observer" ⟨10⟩ sampleLog (some ⟨2⟩)
        [server.Opt.WithBuildInfo sampleBld, server.Opt.WithHealthChecker (some ⟨1⟩)]
        none (some (Err.msg "boom"))) = Kind.setupTelemetry ∧
      (New (boomWorld 3)
        sampleConfig sampleLog sampleBld 0).out
      = some (none, some (Err.wrap (Err.msg "boom") "failed to set up telemetry"))) ∨
    (Event.kind (Event.serverNew "observer" ⟨10⟩ sampleLog (some ⟨2⟩)
        [server.Opt.WithBuildInfo sampleBld, server.Opt.WithHealthChecker (some ⟨1⟩)]
        none (some (Err.msg "boom"))) = Kind.serverNew ∧
      (New (boomWorld 3)
        sampleConfig sampleLog sampleBld 0).out
      = some (none, some (Err.wrap (Err.msg "boom") "failed to create server"))) ∨
    (Event.kind (Event.serverNew "observer" ⟨10⟩ sampleLog (some ⟨2⟩)
        [server.Opt.WithBuildInfo sampleBld, server.Opt.WithHealthChecker (some ⟨1⟩)]
        none (some (Err.msg "boom"))) = Kind.NewClient ∧
      (New (boomWorld 3)
        sampleConfig sampleLog sampleBld 0).out
      = some (none, some (Err.wrap (Err.msg "boom") "failed to create client"))) ∨
    (Event.kind (Event.serverNew "observer" ⟨10⟩ sampleLog (some ⟨2⟩)
        [server.Opt.WithBuildInfo sampleBld, server.Opt.WithHealthChecker (some ⟨1⟩)]
        none (some (Err.msg "boom"))) = Kind.NewObserver ∧
      (New (boomWorld 3)
        sampleConfig sampleLog sampleBld 0).out
      = some (none, some (Err.wrap (Err.msg "boom") "failed to create observer"))) :=
  New_error_tag_text (boomWorld 3)
    sampleConfig sampleLog sampleBld 0 _ (Err.msg "boom") (by decide) rfl

/-- C9. The fixed default name is "youless-observer", that is "youless-"
followed by `Name`.  Every call of `setupTelemetry` made by `New` receives the
caller's telemetry configuration with the service name replaced by that default
when it is the empty string and left as it is otherwise, all other fields
unchanged; and `setupTelemetry` is called exactly once when the health checker
was created and the logger is not nil. -/
theorem New_telemetry_service_name {σ : Type} (w : World σ) (conf : Config)
    (log : Ptr logging.Logger) (bld : Ptr buildinfo.BuildInfo) (s : σ) :
    "youless-" ++ Name = "youless-observer" ∧
    (∀ c l b h t e,
      Event.setupTelemetry c l b h t e ∈ (New w conf log bld s).trace →
      c.ServiceName = (if conf.Telemetry.ServiceName = "" then "youless-observer"
        else conf.Telemetry.ServiceName) ∧
      c.rest = conf.Telemetry.rest) ∧
    ((w.healthcheckNew s).1.2 = none → log ≠ none →
      calls Kind.setupTelemetry (New w conf log bld s).trace = 1) := by
  refine ⟨by decide, ?_, ?_⟩
  · intro c l b h t e
    refine New_elim w conf log bld s
      (fun x => Event.setupTelemetry c l b h t e ∈ x.trace →
        c.ServiceName = (if conf.Telemetry.ServiceName = "" then "youless-observer"
          else conf.Telemetry.ServiceName) ∧
        c.rest = conf.Telemetry.rest) ?_ ?_ ?_ ?_ ?_ ?_ ?_
    all_goals
      intros
      beta_reduce
      intro hmem
      simp only [List.mem_cons, List.mem_singleton, List.not_mem_nil, or_false,
        Event.setupTelemetry.injEq, reduceCtorEq, false_or, or_false] at hmem
    all_goals
      obtain ⟨rfl, -⟩ := hmem
      by_cases hn : conf.Telemetry.ServiceName = "" <;> simp [telemetryConf, hn, Name]
  · intro h1
    refine New_elim w conf log bld s
      (fun x => log ≠ none → calls Kind.setupTelemetry x.trace = 1) ?_ ?_ ?_ ?_ ?_ ?_ ?_
    · intro p e s1 he
      rw [h1] at he
      cases he
    · intro h s1 hlog hne
      exact absurd hlog hne
    all_goals
      intros
      simp [calls, Event.kind]

/-- The witness of `New_telemetry_service_name`: an unset service name, with
every constructor succeeding. -/
theorem New_telemetry_service_name_witness :
    Event.setupTelemetry ⟨"youless-observer", [("Endpoint", "localhost:4317")]⟩
      (some ⟨7⟩) (some ⟨8⟩) (some ⟨1⟩) (some ⟨2⟩) none
      ∈ (New okWorld sampleConfig sampleLog sampleBld 0).trace ∧
    ("youless-observer" = (if sampleConfig.Telemetry.ServiceName = "" then "youless-observer"
        else sampleConfig.Telemetry.ServiceName) ∧
      [("Endpoint", "localhost:4317")] = sampleConfig.Telemetry.rest) ∧
    calls Kind.setupTelemetry (New okWorld sampleConfig sampleLog sampleBld 0).trace = 1 :=
  ⟨by decide,
   (New_telemetry_service_name okWorld sampleConfig sampleLog sampleBld 0).2.1
     ⟨"youless-observer", [("Endpoint", "localhost:4317")]⟩
     (some ⟨7⟩) (some ⟨8⟩) (some ⟨1⟩) (some ⟨2⟩) none (by decide),
   (New_telemetry_service_name okWorld sampleConfig sampleLog sampleBld 0).2.2
     (by decide) (by decide)⟩

/-- C7. `Run` calls the observer's `Start` first and exactly once.  If `Start`
returns an error, `Run` returns exactly that error and makes no other call; if
not, `Run` then calls the server's `Run` exactly once, with the caller's
context, and returns exactly what the server's `Run` returned. -/
theorem Run_starts_observer_then_server {σ : Type} (w : World σ) (app : App)
    (ctx : Context) (s : σ) :
    (∀ e, (w.observerStart app.observer s).1 = some e →
      Run w app ctx s =
        ⟨some (some e), (w.observerStart app.observer s).2,
          [Event.observerStart app.observer (some e)]⟩) ∧
    ((w.observerStart app.observer s).1 = none →
      Run w app ctx s =
        ⟨some (w.serverRun app.server ctx (w.observerStart app.observer s).2).1,
          (w.serverRun app.server ctx (w.observerStart app.observer s).2).2,
          [Event.observerStart app.observer none,
           Event.serverRun app.server ctx
            (w.serverRun app.server ctx (w.observerStart app.observer s).2).1]⟩) := by
  constructor
  · intro e h
    simp [Run, h]
  · intro h
    simp [Run, h]

/-- The witness of `Run_starts_observer_then_server`: a failing and a
succeeding observer start. -/
theorem Run_starts_observer_then_server_witness :
    Run (stubWorld 0 (Err.msg "") (some (Err.msg "no start")) none none none none none)
        sampleApp (Context.root 0) 0
      = ⟨some (some (Err.msg "no start")), 1,
          [Event.observerStart (some ⟨5⟩) (some (Err.msg "no start"))]⟩ ∧
    Run (stubWorld 0 (Err.msg "") none (some (Err.msg "closed")) none none none none)
        sampleApp (Context.root 0) 0
      = ⟨some (some (Err.msg "closed")), 2,
          [Event.observerStart (some ⟨5⟩) none,
           Event.serverRun (some ⟨3⟩) (Context.root 0) (some (Err.msg "closed"))]⟩ :=
  ⟨(Run_starts_observer_then_server
      (stubWorld 0 (Err.msg "") (some (Err.msg "no start")) none none none none none)
      sampleApp (Context.root 0) 0).1 (Err.msg "no start") rfl,
   (Run_starts_observer_then_server
      (stubWorld 0 (Err.msg "") none (some (Err.msg "closed")) none none none none)
      sampleApp (Context.root 0) 0).2 rfl⟩

end observer_app

/-! ## Goroutines under every interleaving -/

/-- Running a goroutine to its end makes one of its complete runs. -/
theorem Goroutine.run_path {σ : Type} (t : Goroutine σ) (s : σ) :
    t.Path (t.run s).2.2 (t.run s).1 := by
  induction t generalizing s with
  | ret e => simp [Goroutine.run, Goroutine.Path]
  | call run ev next ih =>
    simp only [Goroutine.run, Goroutine.Path]
    exact ⟨_, _, rfl, ih _ _⟩

/-- An empty pool does nothing. -/
theorem interleave_nil {σ : Type} (sch : List Nat) (acc : GoError) (s : σ) :
    interleave sch ([] : List (Goroutine σ)) acc s = (acc, s, []) := by
  cases sch <;> simp [interleave, runAll]

/-- A pool of one goroutine runs it to its end, whatever the schedule. -/
theorem interleave_single {σ : Type} (sch : List Nat) (t : Goroutine σ) (acc : GoError)
    (s : σ) :
    interleave sch [t] acc s =
      (errors.Append acc (t.run s).1, (t.run s).2.1, (t.run s).2.2) := by
  induction sch generalizing t acc s with
  | nil => simp [interleave, runAll]
  | cons i sch ih =>
    cases t with
    | ret e => simp [interleave, interleave_nil, Goroutine.run, Nat.mod_one]
    | call run ev next =>
      simp [interleave, Goroutine.run, Nat.mod_one, ih]

/-- Next to a goroutine that has only its return left, the other one makes
its own run; the two results are collected in either order. -/
theorem interleave_ret_left {σ : Type} (sch : List Nat) (a : GoError) (t : Goroutine σ)
    (acc : GoError) (s : σ) :
    (interleave sch [Goroutine.ret a, t] acc s).2.2 = (t.run s).2.2 ∧
    ((interleave sch [Goroutine.ret a, t] acc s).1
        = errors.Append (errors.Append acc a) (t.run s).1 ∨
     (interleave sch [Goroutine.ret a, t] acc s).1
        = errors.Append (errors.Append acc (t.run s).1) a) := by
  induction sch generalizing t acc s with
  | nil => simp [interleave, runAll, Goroutine.run]
  | cons i sch ih =>
    rcases Nat.mod_two_eq_zero_or_one i with hi | hi
    · simp [interleave, hi, interleave_single]
    · cases t with
      | ret e => simp [interleave, hi, interleave_single, Goroutine.run]
      | call run ev next =>
        have := ih (next (run s).1) acc (run s).2
        simp [interleave, hi, Goroutine.run, this.1]
        simpa using this.2

/-- A goroutine of one call next to any goroutine `t`: the trace is a complete
run of `t` with the one call inserted somewhere, and the two results are
collected in either order. -/
theorem interleave_call_left {σ : Type} (sch : List Nat) (run : σ → GoError × σ)
    (ev : GoError → Event) (t : Goroutine σ) (acc : GoError) (s : σ) :
    ∃ e eT pre post,
      (interleave sch [Goroutine.call run ev Goroutine.ret, t] acc s).2.2
        = pre ++ ev e :: post ∧
      t.Path (pre ++ post) eT ∧
      ((interleave sch [Goroutine.call run ev Goroutine.ret, t] acc s).1
          = errors.Append (errors.Append acc e) eT ∨
       (interleave sch [Goroutine.call run ev Goroutine.ret, t] acc s).1
          = errors.Append (errors.Append acc eT) e) := by
  induction sch generalizing t acc s with
  | nil =>
    refine ⟨(run s).1, (t.run (run s).2).1, [], (t.run (run s).2).2.2, ?_, ?_, ?_⟩
    · simp [interleave, runAll, Goroutine.run]
    · simpa using t.run_path _
    · left; simp [interleave, runAll, Goroutine.run]
  | cons i sch ih =>
    rcases Nat.mod_two_eq_zero_or_one i with hi | hi
    · have h := interleave_ret_left sch (run s).1 t acc (run s).2
      refine ⟨(run s).1, (t.run (run s).2).1, [], (t.run (run s).2).2.2, ?_, ?_, ?_⟩
      · simp [interleave, hi, h.1]
      · simpa using t.run_path _
      · simpa [interleave, hi] using h.2
    · cases t with
      | ret b =>
        refine ⟨(run s).1, b, [], [], ?_, ?_, ?_⟩
        · simp [interleave, hi, interleave_single, Goroutine.run]
        · simp [Goroutine.Path]
        · right; simp [interleave, hi, interleave_single, Goroutine.run]
      | call run2 ev2 next =>
        obtain ⟨e, eT, pre, post, h1, h2, h3⟩ := ih (next (run2 s).1) acc (run2 s).2
        refine ⟨e, eT, ev2 (run2 s).1 :: pre, post, ?_, ?_, ?_⟩
        · simp [interleave, hi, h1]
        · simp only [List.cons_append, Goroutine.Path]
          exact ⟨_, _, rfl, h2⟩
        · simpa [interleave, hi] using h3

/-- Replaying two traces in a row. -/
theorem replay_append {σ : Type} (w : World σ) (a b : List Event) (s s1 : σ)
    (h : replay w a s = some s1) : replay w (a ++ b) s = replay w b s1 := by
  induction a generalizing s with
  | nil =>
    simp only [replay, Option.some.injEq] at h
    subst h
    rfl
  | cons ev a ih =>
    simp only [replay, List.cons_append] at h ⊢
    cases hr : w.redo ev s with
    | none => simp [hr] at h
    | some s2 =>
      simp only [hr] at h ⊢
      exact ih s2 h

/-- Every call of a trace that replays is a call the world answers as
recorded, in some state. -/
theorem replay_mem {σ : Type} (w : World σ) (tr : List Event) (s s2 : σ)
    (h : replay w tr s = some s2) (ev : Event) (hev : ev ∈ tr) :
    ∃ s1 s3, w.redo ev s1 = some s3 := by
  induction tr generalizing s with
  | nil => cases hev
  | cons e tr ih =>
    simp only [replay] at h
    cases hr : w.redo e s with
    | none => simp [hr] at h
    | some s4 =>
      simp only [hr] at h
      rcases List.mem_cons.mp hev with rfl | hmem
      · exact ⟨s, s4, hr⟩
      · exact ih s4 h hmem

/-- The trace of a genuine goroutine replays to the state it leaves. -/
theorem Goroutine.replay_run {σ : Type} (w : World σ) (t : Goroutine σ)
    (h : t.Genuine w) (s : σ) : replay w (t.run s).2.2 s = some (t.run s).2.1 := by
  induction t generalizing s with
  | ret e => rfl
  | call run ev next ih =>
    simp only [Goroutine.Genuine] at h
    simp only [Goroutine.run, replay, h.1 s]
    exact ih _ (h.2 _) _

/-- The trace of genuine goroutines run in a row replays to the state they
leave. -/
theorem replay_runAll {σ : Type} (w : World σ) (ts : List (Goroutine σ))
    (h : ∀ t ∈ ts, t.Genuine w) (acc : GoError) (s : σ) :
    replay w (runAll ts acc s).2.2 s = some (runAll ts acc s).2.1 := by
  induction ts generalizing acc s with
  | nil => rfl
  | cons t ts ih =>
    simp only [runAll]
    rw [replay_append w _ _ s _ (Goroutine.replay_run w t (h t (List.mem_cons_self _ _)) s)]
    exact ih (fun t1 ht1 => h t1 (List.mem_cons_of_mem _ ht1)) _ _

/-- The trace of genuine goroutines replays to the state they leave, under
every interleaving. -/
theorem replay_interleave {σ : Type} (w : World σ) (sch : List Nat)
    (ts : List (Goroutine σ)) (h : ∀ t ∈ ts, t.Genuine w) (acc : GoError) (s : σ) :
    replay w (interleave sch ts acc s).2.2 s = some (interleave sch ts acc s).2.1 := by
  induction sch generalizing ts acc s with
  | nil => simpa [interleave] using replay_runAll w ts h acc s
  | cons i sch ih =>
    simp only [interleave]
    cases hg : ts[i % ts.length]? with
    | none => rfl
    | some t =>
      have hmem : t ∈ ts := List.getElem?_mem hg
      cases t with
      | ret e =>
        exact ih _ (fun t1 ht1 => h t1 (List.mem_of_mem_eraseIdx ht1)) _ _
      | call run ev next =>
        have hgen := h _ hmem
        simp only [Goroutine.Genuine] at hgen
        simp only [replay, hgen.1 s]
        refine ih _ (fun t1 ht1 => ?_) _ _
        rcases List.mem_or_eq_of_mem_set ht1 with h1 | h1
        · exact h t1 h1
        · rw [h1]
          exact hgen.2 _

/-- The two ways to split a one-element list. -/
theorem append_eq_singleton_cases {α : Type} (pre post : List α) (x : α)
    (h : pre ++ post = [x]) : (pre = [] ∧ post = [x]) ∨ (pre = [x] ∧ post = []) := by
  rcases pre with _ | ⟨a, pre⟩
  · left; exact ⟨rfl, by simpa using h⟩
  · right
    simp only [List.cons_append, List.cons.injEq, List.append_eq_nil] at h
    obtain ⟨rfl, rfl, rfl⟩ := h
    exact ⟨rfl, rfl⟩

/-- The three ways to split a two-element list. -/
theorem append_eq_pair_cases {α : Type} (pre post : List α) (x y : α)
    (h : pre ++ post = [x, y]) :
    (pre = [] ∧ post = [x, y]) ∨ (pre = [x] ∧ post = [y]) ∨ (pre = [x, y] ∧ post = []) := by
  rcases pre with _ | ⟨a, pre⟩
  · left; exact ⟨rfl, by simpa using h⟩
  · right
    simp only [List.cons_append, List.cons.injEq] at h
    obtain ⟨rfl, h⟩ := h
    rcases append_eq_singleton_cases pre post y h with ⟨rfl, rfl⟩ | ⟨rfl, rfl⟩
    · left; exact ⟨rfl, rfl⟩
    · right; exact ⟨rfl, rfl⟩

namespace observer_app

/-- The ways a run of `Shutdown` can go: the server's shutdown comes first; the
observer's stop falls somewhere among the calls of the telemetry goroutine,
which are either a failed flush alone or a successful flush followed by the
telemetry shutdown; the returned error combines the three results, the two
goroutines in either order. -/
theorem Shutdown_shape {σ : Type} (w : World σ) (app : App) (ctx : Context)
    (sched : List Nat) (s : σ) :
    ∃ eS eT pre post,
      (Shutdown w app ctx sched s).trace
        = Event.serverShutdown app.server ctx (w.serverShutdown app.server ctx s).1
          :: (pre ++ Event.observerStop app.observer eS :: post) ∧
      ((∃ f, pre ++ post = [Event.ForceFlush app.telem (Context.derived ctx) (some f)]
          ∧ eT = some f) ∨
       pre ++ post = [Event.ForceFlush app.telem (Context.derived ctx) none,
          Event.telemetryShutdown app.telem (Context.derived ctx) eT]) ∧
      ((Shutdown w app ctx sched s).out
          = some (errors.Append (w.serverShutdown app.server ctx s).1
              (errors.Append eS eT)) ∨
       (Shutdown w app ctx sched s).out
          = some (errors.Append (w.serverShutdown app.server ctx s).1
              (errors.Append eT eS))) := by
  obtain ⟨eS, eT, pre, post, h1, h2, h3⟩ :=
    interleave_call_left sched (w.observerStop app.observer)
      (Event.observerStop app.observer)
      (Goroutine.call (w.ForceFlush app.telem (Context.derived ctx))
        (Event.ForceFlush app.telem (Context.derived ctx)) fun err =>
        if err ≠ none then Goroutine.ret err
        else
          Goroutine.call (w.telemetryShutdown app.telem (Context.derived ctx))
            (Event.telemetryShutdown app.telem (Context.derived ctx)) Goroutine.ret)
      none (w.serverShutdown app.server ctx s).2
  refine ⟨eS, eT, pre, post, ?_, ?_, ?_⟩
  · rw [← h1]
    rfl
  · simp only [Goroutine.Path] at h2
    obtain ⟨r, tr, htr, hp⟩ := h2
    cases r with
    | none =>
      simp only [ne_eq, not_true_eq_false, if_false, Goroutine.Path] at hp
      obtain ⟨r2, tr2, htr2, rfl, rfl⟩ := hp
      right
      rw [htr, htr2]
    | some f =>
      simp only [ne_eq, reduceCtorEq, not_false_eq_true, if_true, Goroutine.Path] at hp
      obtain ⟨rfl, rfl⟩ := hp
      left
      exact ⟨f, htr, rfl⟩
  · simp only [Append_none_left] at h3
    rcases h3 with h3 | h3
    · left
      rw [← h3]
      rfl
    · right
      rw [← h3]
      rfl


/-- The trace of `Shutdown` replays on the world to the state `Shutdown`
leaves: every call in it was made, on the state the calls before it left, and
returned what the trace records. -/
theorem Shutdown_replay {σ : Type} (w : World σ) (app : App) (ctx : Context)
    (sched : List Nat) (s : σ) :
    replay w (Shutdown w app ctx sched s).trace s
      = some (Shutdown w app ctx sched s).state := by
  have hj := replay_interleave w sched
    [Goroutine.call (w.observerStop app.observer) (Event.observerStop app.observer)
        Goroutine.ret,
     Goroutine.call (w.ForceFlush app.telem (Context.derived ctx))
        (Event.ForceFlush app.telem (Context.derived ctx)) fun err =>
        if err ≠ none then Goroutine.ret err
        else
          Goroutine.call (w.telemetryShutdown app.telem (Context.derived ctx))
            (Event.telemetryShutdown app.telem (Context.derived ctx)) Goroutine.ret]
    (by
      intro t ht
      simp only [List.mem_cons, List.mem_singleton, List.not_mem_nil, or_false] at ht
      rcases ht with rfl | rfl
      · simp [Goroutine.Genuine, World.redo]
      · simp only [Goroutine.Genuine, World.redo, if_true]
        refine ⟨fun _ => trivial, fun r => ?_⟩
        cases r <;> simp [Goroutine.Genuine, World.redo])
    none (w.serverShutdown app.server ctx s).2
  have h0 : w.redo (Event.serverShutdown app.server ctx
      (w.serverShutdown app.server ctx s).1) s
      = some (w.serverShutdown app.server ctx s).2 := by
    simp [World.redo]
  show replay w (Event.serverShutdown app.server ctx
      (w.serverShutdown app.server ctx s).1 :: _) s = _
  simp only [replay, h0]
  exact hj

/-- C3. In every run of `Shutdown`, under every interleaving and whatever the
collaborators return, the first call is the server's `Shutdown`, on the
coordinator's server and with the caller's context, and the trace records what
the world returned for it.  It is the only call of it.  After it the
observer's `Stop` is called exactly once, on the coordinator's observer, and
the telemetry `ForceFlush` exactly once, on the coordinator's telemetry with
the group's context, also when the server's `Shutdown` returned an error.  The
calls after the server's are real calls: made again on the world from the
state the server's `Shutdown` left, each returns what the trace records and
the last one leaves the state `Shutdown` leaves. -/
theorem Shutdown_server_first {σ : Type} (w : World σ) (app : App) (ctx : Context)
    (sched : List Nat) (s : σ) :
    ∃ tr eS eF,
      (Shutdown w app ctx sched s).trace
        = Event.serverShutdown app.server ctx (w.serverShutdown app.server ctx s).1 :: tr ∧
      replay w tr (w.serverShutdown app.server ctx s).2
        = some (Shutdown w app ctx sched s).state ∧
      calls Kind.serverShutdown tr = 0 ∧
      calls Kind.observerStop tr = 1 ∧
      calls Kind.ForceFlush tr = 1 ∧
      Event.observerStop app.observer eS ∈ tr ∧
      Event.ForceFlush app.telem (Context.derived ctx) eF ∈ tr ∧
      (∃ sS, (w.observerStop app.observer sS).1 = eS) ∧
      (∃ sF, (w.ForceFlush app.telem (Context.derived ctx) sF).1 = eF) := by
  obtain ⟨eS, eT, pre, post, h1, h2, -⟩ := Shutdown_shape w app ctx sched s
  have hrep := Shutdown_replay w app ctx sched s
  rw [h1] at hrep
  have h0 : w.redo (Event.serverShutdown app.server ctx
      (w.serverShutdown app.server ctx s).1) s
      = some (w.serverShutdown app.server ctx s).2 := by
    simp [World.redo]
  simp only [replay, h0] at hrep
  have key : ∃ eF,
      calls Kind.serverShutdown (pre ++ Event.observerStop app.observer eS :: post) = 0 ∧
      calls Kind.observerStop (pre ++ Event.observerStop app.observer eS :: post) = 1 ∧
      calls Kind.ForceFlush (pre ++ Event.observerStop app.observer eS :: post) = 1 ∧
      Event.observerStop app.observer eS
        ∈ pre ++ Event.observerStop app.observer eS :: post ∧
      Event.ForceFlush app.telem (Context.derived ctx) eF
        ∈ pre ++ Event.observerStop app.observer eS :: post := by
    rcases h2 with ⟨f, h2, -⟩ | h2
    · refine ⟨some f, ?_⟩
      rcases append_eq_singleton_cases _ _ _ h2 with ⟨rfl, rfl⟩ | ⟨rfl, rfl⟩ <;>
        simp [calls, Event.kind]
    · refine ⟨none, ?_⟩
      rcases append_eq_pair_cases _ _ _ _ h2 with ⟨rfl, rfl⟩ | ⟨rfl, rfl⟩ | ⟨rfl, rfl⟩ <;>
        simp [calls, Event.kind]
  obtain ⟨eF, k1, k2, k3, k4, k5⟩ := key
  obtain ⟨sS, sS2, hS⟩ := replay_mem w _ _ _ hrep _ k4
  obtain ⟨sF, sF2, hF⟩ := replay_mem w _ _ _ hrep _ k5
  simp only [World.redo, ite_eq_left_iff, reduceCtorEq, imp_false, not_not,
    Option.ite_none_right_eq_some] at hS hF
  exact ⟨_, eS, eF, h1, hrep, k1, k2, k3, k4, k5, ⟨sS, hS.1⟩, ⟨sF, hF.1⟩⟩

/-- A run of `Shutdown` in which the server's shutdown fails: the flush runs
before the stop, and all four calls are made, one world step each. -/
theorem Shutdown_server_first_witness :
    (∃ tr eS eF,
      (Shutdown serverFailsWorld sampleApp (Context.root 0) [1, 0] 0).trace
        = Event.serverShutdown sampleApp.server (Context.root 0)
            (serverFailsWorld.serverShutdown sampleApp.server (Context.root 0) 0).1 :: tr ∧
      replay serverFailsWorld tr
          (serverFailsWorld.serverShutdown sampleApp.server (Context.root 0) 0).2
        = some (Shutdown serverFailsWorld sampleApp (Context.root 0) [1, 0] 0).state ∧
      calls Kind.serverShutdown tr = 0 ∧
      calls Kind.observerStop tr = 1 ∧
      calls Kind.ForceFlush tr = 1 ∧
      Event.observerStop sampleApp.observer eS ∈ tr ∧
      Event.ForceFlush sampleApp.telem (Context.derived (Context.root 0)) eF ∈ tr ∧
      (∃ sS, (serverFailsWorld.observerStop sampleApp.observer sS).1 = eS) ∧
      (∃ sF, (serverFailsWorld.ForceFlush sampleApp.telem
        (Context.derived (Context.root 0)) sF).1 = eF)) ∧
    (Shutdown serverFailsWorld sampleApp (Context.root 0) [1, 0] 0).trace
      = [Event.serverShutdown (some ⟨3⟩) (Context.root 0) (some (Err.msg "e1")),
         Event.ForceFlush (some ⟨2⟩) (Context.derived (Context.root 0)) none,
         Event.observerStop (some ⟨5⟩) none,
         Event.telemetryShutdown (some ⟨2⟩) (Context.derived (Context.root 0)) none] ∧
    (Shutdown serverFailsWorld sampleApp (Context.root 0) [1, 0] 0).state = 4 :=
  ⟨Shutdown_server_first serverFailsWorld sampleApp (Context.root 0) [1, 0] 0,
   by decide, by decide⟩

/-- C4. Every failure returned by a call that `Shutdown` makes (the server's
`Shutdown`, the observer's `Stop`, the telemetry `ForceFlush` or the telemetry
`Shutdown`) is contained in the error `Shutdown` returns, under every
interleaving. -/
theorem Shutdown_aggregates_every_failure {σ : Type} (w : World σ) (app : App)
    (ctx : Context) (sched : List Nat) (s : σ) (ev : Event) (e : Err)
    (hev : ev ∈ (Shutdown w app ctx sched s).trace) (he : ev.err = some e) :
    ∃ out, (Shutdown w app ctx sched s).out = some out ∧
      GoError.contains out e = true := by
  obtain ⟨eS, eT, pre, post, h1, h2, h3⟩ := Shutdown_shape w app ctx sched s
  have key : GoError.contains (w.serverShutdown app.server ctx s).1 e = true ∨
      GoError.contains eS e = true ∨ GoError.contains eT e = true := by
    rw [h1] at hev
    rcases h2 with ⟨f, h2, rfl⟩ | h2
    · rcases append_eq_singleton_cases _ _ _ h2 with ⟨rfl, rfl⟩ | ⟨rfl, rfl⟩ <;>
        simp only [List.mem_cons, List.mem_singleton, List.nil_append, List.cons_append,
          List.not_mem_nil, or_false] at hev <;>
        rcases hev with rfl | rfl | rfl <;>
        simp only [Event.err] at he <;>
        simp [he, contains_some_self]
    · rcases append_eq_pair_cases _ _ _ _ h2 with ⟨rfl, rfl⟩ | ⟨rfl, rfl⟩ | ⟨rfl, rfl⟩ <;>
        simp only [List.mem_cons, List.mem_singleton, List.nil_append, List.cons_append,
          List.not_mem_nil, or_false] at hev <;>
        rcases hev with rfl | rfl | rfl | rfl <;>
        simp only [Event.err, reduceCtorEq] at he <;>
        simp [he, contains_some_self]
  rcases h3 with h3 | h3
  · refine ⟨_, h3, ?_⟩
    rcases key with k | k | k
    · exact contains_Append_left _ _ _ k
    · exact contains_Append_right _ _ _ (contains_Append_left _ _ _ k)
    · exact contains_Append_right _ _ _ (contains_Append_right _ _ _ k)
  · refine ⟨_, h3, ?_⟩
    rcases key with k | k | k
    · exact contains_Append_left _ _ _ k
    · exact contains_Append_right _ _ _ (contains_Append_right _ _ _ k)
    · exact contains_Append_right _ _ _ (contains_Append_left _ _ _ k)


/-- The witness of `Shutdown_aggregates_every_failure`: the server's shutdown,
the observer's stop and the telemetry flush fail with "e1", "e2" and "e3", the
flush running before the stop; the returned error contains all three. -/
theorem Shutdown_aggregates_every_failure_witness :
    (Event.serverShutdown (some ⟨3⟩) (Context.root 0) (some (Err.msg "e1"))
        ∈ (Shutdown failingShutdownWorld sampleApp (Context.root 0) [1, 0] 0).trace ∧
      ∃ out, (Shutdown failingShutdownWorld sampleApp (Context.root 0) [1, 0] 0).out
          = some out ∧ GoError.contains out (Err.msg "e1") = true) ∧
    (Event.observerStop (some ⟨5⟩) (some (Err.msg "e2"))
        ∈ (Shutdown failingShutdownWorld sampleApp (Context.root 0) [1, 0] 0).trace ∧
      ∃ out, (Shutdown failingShutdownWorld sampleApp (Context.root 0) [1, 0] 0).out
          = some out ∧ GoError.contains out (Err.msg "e2") = true) ∧
    (Event.ForceFlush (some ⟨2⟩) (Context.derived (Context.root 0)) (some (Err.msg "e3"))
        ∈ (Shutdown failingShutdownWorld sampleApp (Context.root 0) [1, 0] 0).trace ∧
      ∃ out, (Shutdown failingShutdownWorld sampleApp (Context.root 0) [1, 0] 0).out
          = some out ∧ GoError.contains out (Err.msg "e3") = true) :=
  ⟨⟨by decide,
    Shutdown_aggregates_every_failure failingShutdownWorld sampleApp (Context.root 0)
      [1, 0] 0
      (Event.serverShutdown (some ⟨3⟩) (Context.root 0) (some (Err.msg "e1")))
      (Err.msg "e1") (by decide) rfl⟩,
   ⟨by decide,
    Shutdown_aggregates_every_failure failingShutdownWorld sampleApp (Context.root 0)
      [1, 0] 0
      (Event.observerStop (some ⟨5⟩) (some (Err.msg "e2")))
      (Err.msg "e2") (by decide) rfl⟩,
   ⟨by decide,
    Shutdown_aggregates_every_failure failingShutdownWorld sampleApp (Context.root 0)
      [1, 0] 0
      (Event.ForceFlush (some ⟨2⟩) (Context.derived (Context.root 0)) (some (Err.msg "e3")))
      (Err.msg "e3") (by decide) rfl⟩⟩

/-- C5. The calls in the trace of `Shutdown` are real calls: made again on the
world from the start state, each returns what the trace records and the last
one leaves the state `Shutdown` leaves.  Among them are always the server's
`Shutdown`, the observer's `Stop` and the telemetry `ForceFlush`, and the
telemetry `Shutdown` too when the flush returned nil.  `Shutdown` returns nil
if and only if every one of these calls returned nil; and when it returns nil,
the calls made are exactly those four, each once and each returning nil.  So a
failure of any of them makes the returned error non-nil. -/
theorem Shutdown_nil_iff_all_succeed {σ : Type} (w : World σ) (app : App)
    (ctx : Context) (sched : List Nat) (s : σ) :
    replay w (Shutdown w app ctx sched s).trace s
      = some (Shutdown w app ctx sched s).state ∧
    (∃ eS eF,
      Event.serverShutdown app.server ctx (w.serverShutdown app.server ctx s).1
        ∈ (Shutdown w app ctx sched s).trace ∧
      Event.observerStop app.observer eS ∈ (Shutdown w app ctx sched s).trace ∧
      Event.ForceFlush app.telem (Context.derived ctx) eF
        ∈ (Shutdown w app ctx sched s).trace ∧
      (∃ sS, (w.observerStop app.observer sS).1 = eS) ∧
      (∃ sF, (w.ForceFlush app.telem (Context.derived ctx) sF).1 = eF) ∧
      (eF = none → ∃ eT sT,
        Event.telemetryShutdown app.telem (Context.derived ctx) eT
          ∈ (Shutdown w app ctx sched s).trace ∧
        (w.telemetryShutdown app.telem (Context.derived ctx) sT).1 = eT)) ∧
    ((Shutdown w app ctx sched s).out = some none ↔
      ∀ ev ∈ (Shutdown w app ctx sched s).trace, ev.err = none) ∧
    ((Shutdown w app ctx sched s).out = some none →
      List.Perm (Shutdown w app ctx sched s).trace
        [Event.serverShutdown app.server ctx none,
         Event.observerStop app.observer none,
         Event.ForceFlush app.telem (Context.derived ctx) none,
         Event.telemetryShutdown app.telem (Context.derived ctx) none]) := by
  obtain ⟨eS, eT, pre, post, h1, h2, h3⟩ := Shutdown_shape w app ctx sched s
  have hout : (Shutdown w app ctx sched s).out = some none ↔
      (w.serverShutdown app.server ctx s).1 = none ∧ eS = none ∧ eT = none := by
    rcases h3 with h3 | h3
    · rw [h3]
      simp only [Option.some.injEq, Append_eq_none_iff]
    · rw [h3]
      simp only [Option.some.injEq, Append_eq_none_iff]
      tauto
  have hrep := Shutdown_replay w app ctx sched s
  refine ⟨hrep, ?_, ?_, ?_⟩
  · have key : ∃ eF,
        Event.serverShutdown app.server ctx (w.serverShutdown app.server ctx s).1
          ∈ (Shutdown w app ctx sched s).trace ∧
        Event.observerStop app.observer eS ∈ (Shutdown w app ctx sched s).trace ∧
        Event.ForceFlush app.telem (Context.derived ctx) eF
          ∈ (Shutdown w app ctx sched s).trace ∧
        (eF = none → ∃ eT, Event.telemetryShutdown app.telem (Context.derived ctx) eT
          ∈ (Shutdown w app ctx sched s).trace) := by
      rw [h1]
      rcases h2 with ⟨f, h2, -⟩ | h2
      · refine ⟨some f, ?_⟩
        rcases append_eq_singleton_cases _ _ _ h2 with ⟨rfl, rfl⟩ | ⟨rfl, rfl⟩ <;> simp
      · refine ⟨none, ?_⟩
        rcases append_eq_pair_cases _ _ _ _ h2 with
          ⟨rfl, rfl⟩ | ⟨rfl, rfl⟩ | ⟨rfl, rfl⟩ <;> simp
    obtain ⟨eF, k1, k2, k3, k4⟩ := key
    obtain ⟨sS, sS2, hS⟩ := replay_mem w _ _ _ hrep _ k2
    obtain ⟨sF, sF2, hF⟩ := replay_mem w _ _ _ hrep _ k3
    simp only [World.redo, ite_eq_left_iff, reduceCtorEq, imp_false, not_not,
      Option.ite_none_right_eq_some] at hS hF
    refine ⟨eS, eF, k1, k2, k3, ⟨sS, hS.1⟩, ⟨sF, hF.1⟩, ?_⟩
    intro hnil
    obtain ⟨eT1, k5⟩ := k4 hnil
    obtain ⟨sT, sT2, hT⟩ := replay_mem w _ _ _ hrep _ k5
    simp only [World.redo, ite_eq_left_iff, reduceCtorEq, imp_false, not_not,
      Option.ite_none_right_eq_some] at hT
    exact ⟨eT1, sT, k5, hT.1⟩
  · rw [hout, h1]
    rcases h2 with ⟨f, h2, rfl⟩ | h2
    · rcases append_eq_singleton_cases _ _ _ h2 with ⟨rfl, rfl⟩ | ⟨rfl, rfl⟩ <;>
        simp [Event.err]
    · rcases append_eq_pair_cases _ _ _ _ h2 with ⟨rfl, rfl⟩ | ⟨rfl, rfl⟩ | ⟨rfl, rfl⟩
      · simp [Event.err]
      · simp [Event.err]
      · simp [Event.err]
        tauto
  · intro h
    obtain ⟨h0, rfl, rfl⟩ := hout.mp h
    rw [h1, h0]
    rcases h2 with ⟨f, -, hf⟩ | h2
    · cases hf
    · refine List.Perm.cons _ ?_
      refine List.perm_middle.trans ?_
      rw [h2]

/-- The witness of `Shutdown_nil_iff_all_succeed`: with every call succeeding
`Shutdown` returns nil after the four calls; it returns a non-nil error when
only the server's shutdown fails, when only the observer's stop fails, when
only the flush fails, when only the telemetry shutdown fails, and when three
of them fail. -/
theorem Shutdown_nil_iff_all_succeed_witness :
    List.Perm (Shutdown okWorld sampleApp (Context.root 0) [1, 0] 0).trace
      [Event.serverShutdown sampleApp.server (Context.root 0) none,
       Event.observerStop sampleApp.observer none,
       Event.ForceFlush sampleApp.telem (Context.derived (Context.root 0)) none,
       Event.telemetryShutdown sampleApp.telem (Context.derived (Context.root 0)) none] ∧
    (Shutdown serverFailsWorld sampleApp (Context.root 0) [1, 0] 0).out ≠ some none ∧
    (Shutdown stopFailsWorld sampleApp (Context.root 0) [1, 0] 0).out ≠ some none ∧
    (Shutdown flushFailsWorld sampleApp (Context.root 0) [1, 0] 0).out ≠ some none ∧
    (Shutdown teardownFailsWorld sampleApp (Context.root 0) [1, 0] 0).out ≠ some none ∧
    ¬ (∀ ev ∈ (Shutdown failingShutdownWorld sampleApp (Context.root 0) [1, 0] 0).trace,
      ev.err = none) :=
  ⟨(Shutdown_nil_iff_all_succeed okWorld sampleApp (Context.root 0) [1, 0] 0).2.2.2
      (by decide),
   fun h => absurd
    ((Shutdown_nil_iff_all_succeed serverFailsWorld sampleApp (Context.root 0)
      [1, 0] 0).2.2.1.mp h) (by decide),
   fun h => absurd
    ((Shutdown_nil_iff_all_succeed stopFailsWorld sampleApp (Context.root 0)
      [1, 0] 0).2.2.1.mp h) (by decide),
   fun h => absurd
    ((Shutdown_nil_iff_all_succeed flushFailsWorld sampleApp (Context.root 0)
      [1, 0] 0).2.2.1.mp h) (by decide),
   fun h => absurd
    ((Shutdown_nil_iff_all_succeed teardownFailsWorld sampleApp (Context.root 0)
      [1, 0] 0).2.2.1.mp h) (by decide),
   fun h => absurd
    ((Shutdown_nil_iff_all_succeed failingShutdownWorld sampleApp (Context.root 0)
      [1, 0] 0).2.2.1.mpr h) (by decide)⟩

/-- The trace of `Shutdown` around the flush: one flush; after a failed flush
no telemetry shutdown and the failure in the returned error; after a flush
that returned nil one telemetry shutdown, later in the trace. -/
theorem Shutdown_flush_cases {σ : Type} (w : World σ) (app : App)
    (ctx : Context) (sched : List Nat) (s : σ) :
    calls Kind.ForceFlush (Shutdown w app ctx sched s).trace = 1 ∧
    (∀ t c f, Event.ForceFlush t c (some f) ∈ (Shutdown w app ctx sched s).trace →
      calls Kind.telemetryShutdown (Shutdown w app ctx sched s).trace = 0 ∧
      ∃ out, (Shutdown w app ctx sched s).out = some out ∧
        GoError.contains out f = true) ∧
    (∀ t c, Event.ForceFlush t c none ∈ (Shutdown w app ctx sched s).trace →
      calls Kind.telemetryShutdown (Shutdown w app ctx sched s).trace = 1 ∧
      ∃ a b d e, (Shutdown w app ctx sched s).trace
        = a ++ Event.ForceFlush app.telem (Context.derived ctx) none
          :: (b ++ Event.telemetryShutdown app.telem (Context.derived ctx) e :: d)) := by
  obtain ⟨eS, eT, pre, post, h1, h2, h3⟩ := Shutdown_shape w app ctx sched s
  rcases h2 with ⟨f0, h2, rfl⟩ | h2
  · have hc : ∃ out, (Shutdown w app ctx sched s).out = some out ∧
        GoError.contains out f0 = true := by
      rcases h3 with h3 | h3
      · exact ⟨_, h3, contains_Append_right _ _ _
          (contains_Append_right _ _ _ (contains_some_self f0))⟩
      · exact ⟨_, h3, contains_Append_right _ _ _
          (contains_Append_left _ _ _ (contains_some_self f0))⟩
    rw [h1]
    rcases append_eq_singleton_cases _ _ _ h2 with ⟨rfl, rfl⟩ | ⟨rfl, rfl⟩
    · refine ⟨by simp [calls, Event.kind], ?_, ?_⟩
      · intro t c f hmem
        simp at hmem
        obtain ⟨-, -, rfl⟩ := hmem
        exact ⟨by simp [calls, Event.kind], hc⟩
      · intro t c hmem
        simp at hmem
    · refine ⟨by simp [calls, Event.kind], ?_, ?_⟩
      · intro t c f hmem
        simp at hmem
        obtain ⟨-, -, rfl⟩ := hmem
        exact ⟨by simp [calls, Event.kind], hc⟩
      · intro t c hmem
        simp at hmem
  · rw [h1]
    rcases append_eq_pair_cases _ _ _ _ h2 with ⟨rfl, rfl⟩ | ⟨rfl, rfl⟩ | ⟨rfl, rfl⟩
    · refine ⟨by simp [calls, Event.kind], ?_, ?_⟩
      · intro t c f hmem
        simp at hmem
      · intro t c _
        exact ⟨by simp [calls, Event.kind],
          [Event.serverShutdown app.server ctx (w.serverShutdown app.server ctx s).1,
            Event.observerStop app.observer eS], [], [], eT, by simp⟩
    · refine ⟨by simp [calls, Event.kind], ?_, ?_⟩
      · intro t c f hmem
        simp at hmem
      · intro t c _
        exact ⟨by simp [calls, Event.kind],
          [Event.serverShutdown app.server ctx (w.serverShutdown app.server ctx s).1],
          [Event.observerStop app.observer eS], [], eT, by simp⟩
    · refine ⟨by simp [calls, Event.kind], ?_, ?_⟩
      · intro t c f hmem
        simp at hmem
      · intro t c _
        exact ⟨by simp [calls, Event.kind],
          [Event.serverShutdown app.server ctx (w.serverShutdown app.server ctx s).1],
          [], [Event.observerStop app.observer eS], eT, by simp⟩

/-- C6. The calls in the trace of `Shutdown` are real calls: made again on the
world from the start state, each returns what the trace records and the last
one leaves the state `Shutdown` leaves; the first is the server's `Shutdown`
and the observer's `Stop` is among the rest.  The telemetry `ForceFlush` is called
exactly once, on the coordinator's telemetry with the group's context.  When
that call returns a failure `f`, the telemetry `Shutdown` is not called and
`f` is contained in the error `Shutdown` returns; when it returns nil, the
telemetry `Shutdown` is called exactly once, on the coordinator's telemetry
with the group's context, later than the flush. -/
theorem Shutdown_flush_failure_skips_teardown {σ : Type} (w : World σ) (app : App)
    (ctx : Context) (sched : List Nat) (s : σ) :
    replay w (Shutdown w app ctx sched s).trace s
      = some (Shutdown w app ctx sched s).state ∧
    (∃ tr eS, (Shutdown w app ctx sched s).trace
        = Event.serverShutdown app.server ctx (w.serverShutdown app.server ctx s).1 :: tr ∧
      Event.observerStop app.observer eS ∈ tr) ∧
    (∃ eF sF, Event.ForceFlush app.telem (Context.derived ctx) eF
        ∈ (Shutdown w app ctx sched s).trace ∧
      (w.ForceFlush app.telem (Context.derived ctx) sF).1 = eF) ∧
    calls Kind.ForceFlush (Shutdown w app ctx sched s).trace = 1 ∧
    (∀ t c f, Event.ForceFlush t c (some f) ∈ (Shutdown w app ctx sched s).trace →
      calls Kind.telemetryShutdown (Shutdown w app ctx sched s).trace = 0 ∧
      ∃ out, (Shutdown w app ctx sched s).out = some out ∧
        GoError.contains out f = true) ∧
    (∀ t c, Event.ForceFlush t c none ∈ (Shutdown w app ctx sched s).trace →
      calls Kind.telemetryShutdown (Shutdown w app ctx sched s).trace = 1 ∧
      ∃ a b d e, (Shutdown w app ctx sched s).trace
        = a ++ Event.ForceFlush app.telem (Context.derived ctx) none
          :: (b ++ Event.telemetryShutdown app.telem (Context.derived ctx) e :: d) ∧
        ∃ sT, (w.telemetryShutdown app.telem (Context.derived ctx) sT).1 = e) := by
  have hrep := Shutdown_replay w app ctx sched s
  obtain ⟨c1, c2, c3⟩ := Shutdown_flush_cases w app ctx sched s
  refine ⟨hrep, ?_, ?_, c1, c2, ?_⟩
  · obtain ⟨eS, eT, pre, post, h1, -, -⟩ := Shutdown_shape w app ctx sched s
    exact ⟨_, eS, h1, by simp⟩
  · have key : ∃ eF, Event.ForceFlush app.telem (Context.derived ctx) eF
        ∈ (Shutdown w app ctx sched s).trace := by
      obtain ⟨eS, eT, pre, post, h1, h2, -⟩ := Shutdown_shape w app ctx sched s
      rw [h1]
      rcases h2 with ⟨f, h2, -⟩ | h2
      · refine ⟨some f, ?_⟩
        rcases append_eq_singleton_cases _ _ _ h2 with ⟨rfl, rfl⟩ | ⟨rfl, rfl⟩ <;> simp
      · refine ⟨none, ?_⟩
        rcases append_eq_pair_cases _ _ _ _ h2 with
          ⟨rfl, rfl⟩ | ⟨rfl, rfl⟩ | ⟨rfl, rfl⟩ <;> simp
    obtain ⟨eF, k⟩ := key
    obtain ⟨sF, sF2, hF⟩ := replay_mem w _ _ _ hrep _ k
    simp only [World.redo, ite_eq_left_iff, reduceCtorEq, imp_false, not_not,
      Option.ite_none_right_eq_some] at hF
    exact ⟨eF, sF, k, hF.1⟩
  · intro t c hmem
    obtain ⟨hc, a, b, d, e, htr⟩ := c3 t c hmem
    have hT : Event.telemetryShutdown app.telem (Context.derived ctx) e
        ∈ (Shutdown w app ctx sched s).trace := by
      rw [htr]
      simp
    obtain ⟨sT, sT2, hT2⟩ := replay_mem w _ _ _ hrep _ hT
    simp only [World.redo, ite_eq_left_iff, reduceCtorEq, imp_false, not_not,
      Option.ite_none_right_eq_some] at hT2
    exact ⟨hc, a, b, d, e, htr, sT, hT2.1⟩

/-- The witness of `Shutdown_flush_failure_skips_teardown`: a failing flush,
after which three calls have been made and none is the telemetry shutdown, and
a succeeding flush whose goroutine runs to its end before the observer's stop,
after which four calls have been made. -/
theorem Shutdown_flush_failure_skips_teardown_witness :
    (calls Kind.telemetryShutdown
        (Shutdown flushFailsWorld sampleApp (Context.root 0) [1, 0] 0).trace = 0 ∧
      ∃ out, (Shutdown flushFailsWorld sampleApp (Context.root 0) [1, 0] 0).out
          = some out ∧ GoError.contains out (Err.msg "e3") = true) ∧
    (calls Kind.telemetryShutdown
        (Shutdown okWorld sampleApp (Context.root 0) [1, 1, 1] 0).trace = 1 ∧
      ∃ a b d e, (Shutdown okWorld sampleApp (Context.root 0) [1, 1, 1] 0).trace
        = a ++ Event.ForceFlush sampleApp.telem (Context.derived (Context.root 0)) none
          :: (b ++ Event.telemetryShutdown sampleApp.telem
            (Context.derived (Context.root 0)) e :: d) ∧
        ∃ sT, (okWorld.telemetryShutdown sampleApp.telem
          (Context.derived (Context.root 0)) sT).1 = e) ∧
    (Shutdown flushFailsWorld sampleApp (Context.root 0) [1, 0] 0).trace
      = [Event.serverShutdown (some ⟨3⟩) (Context.root 0) none,
         Event.ForceFlush (some ⟨2⟩) (Context.derived (Context.root 0))
          (some (Err.msg "e3")),
         Event.observerStop (some ⟨5⟩) none] ∧
    (Shutdown flushFailsWorld sampleApp (Context.root 0) [1, 0] 0).state = 3 ∧
    (Shutdown okWorld sampleApp (Context.root 0) [1, 1, 1] 0).trace
      = [Event.serverShutdown (some ⟨3⟩) (Context.root 0) none,
         Event.ForceFlush (some ⟨2⟩) (Context.derived (Context.root 0)) none,
         Event.telemetryShutdown (some ⟨2⟩) (Context.derived (Context.root 0)) none,
         Event.observerStop (some ⟨5⟩) none] ∧
    (Shutdown okWorld sampleApp (Context.root 0) [1, 1, 1] 0).state = 4 :=
  ⟨(Shutdown_flush_failure_skips_teardown flushFailsWorld sampleApp (Context.root 0)
      [1, 0] 0).2.2.2.2.1 (some ⟨2⟩) (Context.derived (Context.root 0)) (Err.msg "e3")
      (by decide),
   (Shutdown_flush_failure_skips_teardown okWorld sampleApp (Context.root 0)
      [1, 1, 1] 0).2.2.2.2.2 (some ⟨2⟩) (Context.derived (Context.root 0)) (by decide),
   by decide, by decide, by decide, by decide⟩

end observer_app

/-- C10. In the variant without health checker, `Shutdown` calls the
observer's `Stop` first and the server's `Shutdown` second, each exactly once
whatever the first returns, and returns `errors.Append` of the two results,
which is nil exactly when both are nil.  In `Shutdown` of the observer-app
variant the order is the reverse: the server's `Shutdown` is the first call
and the observer's `Stop` comes after it. -/
theorem simple_Shutdown_stops_observer_first {σ : Type} (w : World σ)
    (app : observer.App) (ctx : Context) (s : σ)
    (app2 : observer_app.App) (sched : List Nat) (s2 : σ) :
    observer.Shutdown w app ctx s =
      ⟨some (errors.Append (w.observerStop app.observer s).1
          (w.serverShutdown app.server ctx (w.observerStop app.observer s).2).1),
        (w.serverShutdown app.server ctx (w.observerStop app.observer s).2).2,
        [Event.observerStop app.observer (w.observerStop app.observer s).1,
         Event.serverShutdown app.server ctx
          (w.serverShutdown app.server ctx (w.observerStop app.observer s).2).1]⟩ ∧
    ((observer.Shutdown w app ctx s).out = some none ↔
      (w.observerStop app.observer s).1 = none ∧
      (w.serverShutdown app.server ctx (w.observerStop app.observer s).2).1 = none) ∧
    (∃ e0 pre eS post, (observer_app.Shutdown w app2 ctx sched s2).trace
      = Event.serverShutdown app2.server ctx e0
        :: (pre ++ Event.observerStop app2.observer eS :: post)) := by
  refine ⟨rfl, ?_, ?_⟩
  · simp [observer.Shutdown, Append_eq_none_iff]
  · obtain ⟨eS, eT, pre, post, h1, -, -⟩ :=
      observer_app.Shutdown_shape w app2 ctx sched s2
    exact ⟨_, pre, eS, post, h1⟩
